import Mathlib

/-!
Verification development for the Inko repository.

Shallow embedding of:
  * `src/compiler/src/parser.rs` — the LL(1) recursive-descent parser
    (namespace `Inko`),
  * `src/vm/src/vm/io.rs` — the VM I/O operation layer (namespace `InkoIo`),
  * `src/rt/src/runtime.rs` — the runtime C-ABI entry points (namespace
    `InkoRt`).

Conventions used throughout:
  * The lexer is out of scope of the specification; the parser is embedded
    as a function over the list of tokens it consumes.  `Lexer.next` is
    list uncons, `Lexer.peek` is `List.head?`.
  * Rust `Result<T, String>` parse failures are `Failure.returned`;
    a Rust `panic!` or `Option::unwrap()` abort is `Failure.panicked`,
    which is *not* a value the Rust caller can observe — it models a crash.
  * Rust loops become fueled tail-recursive helper functions (`*_loop`);
    the fuel is an embedding artifact, made large enough by `parse` that it
    is never exhausted on the inputs considered.
  * `f64` literals are represented by their source text, since floating
    point is outside the embedding; no claim depends on float values.
-/

set_option maxRecDepth 100000

namespace Inko

/-- Token kinds used by `parser.rs` (the lexer's closed alphabet). -/
inductive TokenType where
  | Add | And | Arrow | As | Assign | Attribute | BitwiseAnd | BitwiseOr
  | BitwiseXor | BracketClose | BracketOpen | Class | Colon | ColonColon
  | Comma | Comment | Constant | CurlyClose | CurlyOpen | Div | Dot | Else
  | Equal | ExclusiveRange | Float | Function | Greater | GreaterEqual
  | HashOpen | Identifier | Impl | Import | InclusiveRange | Integer | Let
  | Lower | LowerEqual | Mod | Mul | NotEqual | Or | ParenClose | ParenOpen
  | Pow | Return | SelfObject | ShiftLeft | ShiftRight | String | Sub
  | Throw | Trait | Try | Type | TypeArgsOpen | Var
deriving DecidableEq, Repr

/-- Rendering of a token kind used when embedding Rust error messages
produced with a `{:?}` format of a `TokenType` value. -/
def tokenTypeName : TokenType → String
  | .Add => "Add" | .And => "And" | .Arrow => "Arrow" | .As => "As"
  | .Assign => "Assign" | .Attribute => "Attribute"
  | .BitwiseAnd => "BitwiseAnd" | .BitwiseOr => "BitwiseOr"
  | .BitwiseXor => "BitwiseXor" | .BracketClose => "BracketClose"
  | .BracketOpen => "BracketOpen" | .Class => "Class" | .Colon => "Colon"
  | .ColonColon => "ColonColon" | .Comma => "Comma" | .Comment => "Comment"
  | .Constant => "Constant" | .CurlyClose => "CurlyClose"
  | .CurlyOpen => "CurlyOpen" | .Div => "Div" | .Dot => "Dot"
  | .Else => "Else" | .Equal => "Equal"
  | .ExclusiveRange => "ExclusiveRange" | .Float => "Float"
  | .Function => "Function" | .Greater => "Greater"
  | .GreaterEqual => "GreaterEqual" | .HashOpen => "HashOpen"
  | .Identifier => "Identifier" | .Impl => "Impl" | .Import => "Import"
  | .InclusiveRange => "InclusiveRange" | .Integer => "Integer"
  | .Let => "Let" | .Lower => "Lower" | .LowerEqual => "LowerEqual"
  | .Mod => "Mod" | .Mul => "Mul" | .NotEqual => "NotEqual" | .Or => "Or"
  | .ParenClose => "ParenClose" | .ParenOpen => "ParenOpen" | .Pow => "Pow"
  | .Return => "Return" | .SelfObject => "SelfObject"
  | .ShiftLeft => "ShiftLeft" | .ShiftRight => "ShiftRight"
  | .String => "String" | .Sub => "Sub" | .Throw => "Throw"
  | .Trait => "Trait" | .Try => "Try" | .Type => "Type"
  | .TypeArgsOpen => "TypeArgsOpen" | .Var => "Var"

/-- A lexical token: kind, verbatim text, 1-based line and column. -/
structure Token where
  token_type : TokenType
  value : String
  line : Nat
  column : Nat
deriving DecidableEq, Repr

/-- The token stream consumed by the parser (lookahead-1, each token
consumed exactly once). -/
abbrev Lexer := List Token

/-- AST nodes, mirroring `enum Node` in `parser.rs`.  The Rust variant
`Node::Type` is called `TypeName` here because `Type` is reserved in Lean;
`f64` payloads are represented by their source text. -/
inductive Node where
  | Expressions (nodes : List Node)
  | Send (name : String) (receiver : Option Node) (arguments : List Node)
      (line : Nat) (column : Nat)
  | String (value : String) (line : Nat) (column : Nat)
  | Integer (value : Int) (line : Nat) (column : Nat)
  | Float (value : String) (line : Nat) (column : Nat)
  | Array (values : List Node) (line : Nat) (column : Nat)
  | Hash (pairs : List (Node × Node)) (line : Nat) (column : Nat)
  | SelfObject (line : Nat) (column : Nat)
  | Identifier (name : String) (line : Nat) (column : Nat)
  | Attribute (name : String) (line : Nat) (column : Nat)
  | Constant (receiver : Option Node) (name : String) (line : Nat)
      (column : Nat)
  | Comment (value : String) (line : Nat) (column : Nat)
  | TypeName (constant : Node) (arguments : List Node)
      (return_type : Option Node) (line : Nat) (column : Nat)
  | UnionType (types : List Node) (line : Nat) (column : Nat)
  | Closure (arguments : List Node) (return_type : Option Node)
      (body : Node) (line : Nat) (column : Nat)
  | ArgumentDefine (name : String) (value_type : Option Node)
      (dflt : Option Node) (line : Nat) (column : Nat) (rest : Bool)
  | KeywordArgument (name : String) (value : Node) (line : Nat)
      (column : Nat)
  | Method (receiver : Option Node) (name : String)
      (arguments : List Node) (type_arguments : List Node)
      (return_type : Option Node) (throw_type : Option Node)
      (body : Option Node) (line : Nat) (column : Nat)
  | Class (name : String) (type_arguments : List Node)
      (implements : List Node) (body : Node) (line : Nat) (column : Nat)
  | Trait (name : String) (type_arguments : List Node) (body : Node)
      (line : Nat) (column : Nat)
  | Implement (name : Node) (type_arguments : List Node)
      (renames : List (Node × Node)) (line : Nat) (column : Nat)
  | Return (value : Option Node) (line : Nat) (column : Nat)
  | LetDefine (name : Node) (value : Node) (value_type : Option Node)
      (line : Nat) (column : Nat)
  | VarDefine (name : Node) (value : Node) (value_type : Option Node)
      (line : Nat) (column : Nat)
  | Import (steps : List Node) (symbols : List Node) (line : Nat)
      (column : Nat)
  | ImportSymbol (symbol : Node) (alias_name : Option Node)
  | TypeCast (value : Node) (target_type : Node) (line : Nat)
      (column : Nat)
  | TypeDefine (name : Node) (value : Node) (line : Nat) (column : Nat)
  | Try (body : Node) (else_body : Option Node)
      (else_argument : Option Node) (line : Nat) (column : Nat)
  | Throw (value : Node) (line : Nat) (column : Nat)
  | Or (left : Node) (right : Node) (line : Nat) (column : Nat)
  | And (left : Node) (right : Node) (line : Nat) (column : Nat)
  | Equal (left : Node) (right : Node) (line : Nat) (column : Nat)
  | NotEqual (left : Node) (right : Node) (line : Nat) (column : Nat)
  | Lower (left : Node) (right : Node) (line : Nat) (column : Nat)
  | LowerEqual (left : Node) (right : Node) (line : Nat) (column : Nat)
  | Greater (left : Node) (right : Node) (line : Nat) (column : Nat)
  | GreaterEqual (left : Node) (right : Node) (line : Nat) (column : Nat)
  | BitwiseOr (left : Node) (right : Node) (line : Nat) (column : Nat)
  | BitwiseXor (left : Node) (right : Node) (line : Nat) (column : Nat)
  | BitwiseAnd (left : Node) (right : Node) (line : Nat) (column : Nat)
  | ShiftLeft (left : Node) (right : Node) (line : Nat) (column : Nat)
  | ShiftRight (left : Node) (right : Node) (line : Nat) (column : Nat)
  | Add (left : Node) (right : Node) (line : Nat) (column : Nat)
  | Sub (left : Node) (right : Node) (line : Nat) (column : Nat)
  | Div (left : Node) (right : Node) (line : Nat) (column : Nat)
  | Mod (left : Node) (right : Node) (line : Nat) (column : Nat)
  | Mul (left : Node) (right : Node) (line : Nat) (column : Nat)
  | Pow (left : Node) (right : Node) (line : Nat) (column : Nat)
  | InclusiveRange (left : Node) (right : Node) (line : Nat) (column : Nat)
  | ExclusiveRange (left : Node) (right : Node) (line : Nat) (column : Nat)
  | Reassign (target : Node) (value : Node) (line : Nat) (column : Nat)

/-- Outcome of running the parser.  `returned` is a Rust `Err(String)`
returned to the caller; `panicked` models a Rust `panic!` or
`Option::unwrap()` abort (a crash, not a returned value); `outOfFuel` is
an artifact of the fueled embedding and is never produced for the inputs
the theorems below consider. -/
inductive Failure where
  | returned (message : String)
  | panicked (message : String)
  | outOfFuel
deriving DecidableEq, Repr

/-- Result type of the embedded parser functions. -/
abbrev PRes (α : Type) := Except Failure α

/-- Message of the Rust abort from `Option::unwrap()` on `None`. -/
def unwrapMsg : String := "called Option::unwrap on a None value"

/-- Models `self.lexer.peek()`. -/
def peek (lx : Lexer) : Option Token := lx.head?

/-- Models `self.lexer.next_type_is(&t)`. -/
def next_type_is (lx : Lexer) (t : TokenType) : Bool :=
  match lx.head? with
  | some token => token.token_type == t
  | none => false

/-- Models the `next_or_error!` macro: pull a token or fail with
"Unexpected end of input". -/
def next_or_error (lx : Lexer) : PRes (Token × Lexer) :=
  match lx with
  | [] => .error (.returned "Unexpected end of input")
  | token :: rest => .ok (token, rest)

/-- Models `self.lexer.next().unwrap()`: pull a token or *panic*. -/
def unwrap_next (lx : Lexer) : PRes (Token × Lexer) :=
  match lx with
  | [] => .error (.panicked unwrapMsg)
  | token :: rest => .ok (token, rest)

/-- Models the `next_of_type!` macro. -/
def next_of_type (lx : Lexer) (expected : TokenType) : PRes (Token × Lexer) := do
  let (token, lx) ← next_or_error lx
  if token.token_type != expected then
    .error (.returned ("Unexpected token " ++ tokenTypeName token.token_type
      ++ ", expected a " ++ tokenTypeName expected))
  else
    .ok (token, lx)

/-- Models the `comma_or_break_on!` macro: consume one token; a comma means
"continue the loop" (result `true`), the break token means "break" (result
`false`), anything else is a parse failure. -/
def comma_or_break_on (lx : Lexer) (btoken : TokenType) : PRes (Bool × Lexer) :=
  match lx with
  | [] => .error (.returned "Unexpected end of input")
  | token :: rest =>
    if token.token_type == TokenType.Comma then .ok (true, rest)
    else if token.token_type == btoken then .ok (false, rest)
    else .error (.returned ("Unexpected token " ++ tokenTypeName token.token_type))

/-- Models `parse_value!(i64, v)`, i.e. Rust `str::parse::<i64>`: an
optional sign followed by one or more decimal digits, value within the
64-bit signed range; anything else is an error string (the exact Rust
`ParseIntError` text is abbreviated to a fixed message). -/
def parse_i64 (s : String) : Except String Int :=
  let chars := s.data
  let signDigits : Bool × List Char :=
    match chars with
    | '-' :: rest => (true, rest)
    | '+' :: rest => (false, rest)
    | _ => (false, chars)
  let neg := signDigits.1
  let digits := signDigits.2
  if digits.isEmpty || !digits.all (fun c => c.isDigit) then
    .error "invalid i64 literal"
  else
    let n : Nat := digits.foldl (fun acc c => acc * 10 + (c.toNat - 48)) 0
    let val : Int := if neg then -(n : Int) else (n : Int)
    if -(2 ^ 63) ≤ val ∧ val < 2 ^ 63 then .ok val
    else .error "invalid i64 literal"

/-- The `message_tokens` set built in `Parser::new` (`hash_set![...]`),
kept as the literal list; membership is what the parser uses. -/
def message_tokens : List TokenType :=
  [.Add, .And, .BitwiseAnd, .BitwiseOr, .BitwiseXor, .Constant, .Div,
   .Equal, .ExclusiveRange, .Greater, .GreaterEqual, .Identifier, .Impl,
   .Import, .InclusiveRange, .Let, .Lower, .LowerEqual, .Mod, .Mul,
   .NotEqual, .Class, .Or, .Pow, .Return, .SelfObject, .ShiftLeft,
   .ShiftRight, .Sub, .Trait, .Var, .BracketOpen, .Throw, .Else]

/-- The `value_start` set built in `Parser::new` (`hash_set![...]`), kept
as the literal list from the source — note the source lists `Let` twice
and does not list `Var`. -/
def value_start : List TokenType :=
  [.String, .Integer, .Float, .Identifier, .Constant, .HashOpen, .Sub,
   .BracketOpen, .CurlyOpen, .Function, .Let, .Let, .Class, .Trait,
   .Return, .Impl, .Comment, .Colon, .Type, .Attribute, .SelfObject,
   .Try, .Throw]

/-- Models `Parser::identifier_from_token`. -/
def identifier_from_token (token : Token) : Node :=
  .Identifier token.value token.line token.column

/-- Models `Parser::attribute_from_token`. -/
def attribute_from_token (token : Token) : Node :=
  .Attribute token.value token.line token.column

/-- Models `Parser::constant_from_token`. -/
def constant_from_token (token : Token) (receiver : Option Node) : Node :=
  .Constant receiver token.value token.line token.column

/-- Models `Parser::next_expression_is_argument`: the next token starts a
paren-less argument list when its kind is in `value_start` and it sits on
the given line. -/
def next_expression_is_argument (lx : Lexer) (current_line : Nat) : Bool :=
  match lx.head? with
  | some token =>
    value_start.contains token.token_type && token.line == current_line
  | none => false

/-- Models `Parser::message_name_for_token`. -/
def message_name_for_token (start : Token) (lx : Lexer) : PRes (String × Lexer) :=
  if message_tokens.contains start.token_type then do
    let name := start.value
    let (name, lx) ←
      if start.token_type == TokenType.BracketOpen then do
        let (_, lx) ← next_of_type lx TokenType.BracketClose
        pure (name.push ']', lx)
      else
        pure (name, lx)
    if next_type_is lx TokenType.Assign then
      .ok (name.push '=', lx.tail)
    else
      .ok (name, lx)
  else
    .error (.returned ("Tokens of type " ++ tokenTypeName start.token_type
      ++ " are not valid for method names"))

/-- Models `Parser::send_name`. -/
def send_name (lx : Lexer) : PRes ((String × Nat × Nat) × Lexer) := do
  let (token, lx) ← next_or_error lx
  let column := token.column
  let line := token.line
  let (name, lx) ← message_name_for_token token lx
  .ok ((name, line, column), lx)

/-- Models `Parser::string`. -/
def string (start : Token) (lx : Lexer) : PRes (Node × Lexer) :=
  .ok (.String start.value start.line start.column, lx)

/-- Models `Parser::integer`. -/
def integer (start : Token) (lx : Lexer) : PRes (Node × Lexer) :=
  match parse_i64 start.value with
  | .error e => .error (.returned e)
  | .ok val => .ok (.Integer val start.line start.column, lx)

/-- Models `Parser::float` (the `f64` value is kept as its text). -/
def float (start : Token) (lx : Lexer) : PRes (Node × Lexer) :=
  .ok (.Float start.value start.line start.column, lx)

/-- Models `Parser::negative_number`.  Negating the parsed `f64` is
represented by prefixing the text with a minus sign. -/
def negative_number (start : Token) (lx : Lexer) : PRes (Node × Lexer) := do
  let (following, lx) ← next_or_error lx
  match following.token_type with
  | .Integer =>
    match parse_i64 following.value with
    | .error e => .error (.returned e)
    | .ok val => .ok (.Integer (-val) start.line start.column, lx)
  | .Float =>
    .ok (.Float ("-" ++ following.value) start.line start.column, lx)
  | _ =>
    .error (.returned ("Unexpected token "
      ++ tokenTypeName following.token_type ++ ", expected a number"))

/-- Models `Parser::comment`. -/
def comment (start : Token) (lx : Lexer) : PRes (Node × Lexer) :=
  .ok (.Comment start.value start.line start.column, lx)

/-- Models `Parser::self_object`. -/
def self_object (start : Token) (lx : Lexer) : PRes (Node × Lexer) :=
  .ok (.SelfObject start.line start.column, lx)

/-- Models `Parser::variable_name`.  Note that the wildcard arm of the
source uses `panic!`, not `parse_error!`: a `let`/`var` name token that is
not an identifier, attribute or constant crashes the parser. -/
def variable_name (lx : Lexer) : PRes (Node × Lexer) := do
  let (start, lx) ← next_or_error lx
  match start.token_type with
  | .Identifier => .ok (identifier_from_token start, lx)
  | .Attribute => .ok (attribute_from_token start, lx)
  | .Constant => .ok (constant_from_token start none, lx)
  | _ =>
    .error (.panicked ("Unexpected " ++ tokenTypeName start.token_type
      ++ ", expected an identifier or attribute"))

/-!
The recursive parser functions.  Every Rust `loop`/`while` becomes a
`*_loop` helper; every function takes a fuel argument (decremented on
entry) so that the mutual recursion is structural.  The eleven
instantiations of the `binary_op!` macro are embedded as their expansions:
an entry function and a left-folding loop per precedence level.
-/

mutual

/-- Models `Parser::expressions` (the `parse` entry body). -/
def expressions : Nat → Lexer → PRes (Node × Lexer)
  | 0, _ => .error .outOfFuel
  | fuel + 1, lx => expressions_loop fuel [] lx

/-- Loop of `Parser::expressions`: `while let Some(token) = lexer.next()`. -/
def expressions_loop : Nat → List Node → Lexer → PRes (Node × Lexer)
  | 0, _, _ => .error .outOfFuel
  | fuel + 1, children, lx =>
    match lx with
    | [] => .ok (.Expressions children, [])
    | token :: rest => do
      let (node, lx) ← import_or_expression fuel token rest
      expressions_loop fuel (children ++ [node]) lx
termination_by structural fuel _ _ => fuel

/-- Models `Parser::import_or_expression`. -/
def import_or_expression : Nat → Token → Lexer → PRes (Node × Lexer)
  | 0, _, _ => .error .outOfFuel
  | fuel + 1, start, lx =>
    if start.token_type == TokenType.Import then
      import_expression fuel start lx
    else
      expression fuel start lx

/-- Models `Parser::expression`. -/
def expression : Nat → Token → Lexer → PRes (Node × Lexer)
  | 0, _, _ => .error .outOfFuel
  | fuel + 1, start, lx => binary_or fuel start lx
termination_by structural fuel _ _ => fuel

/-- Models `Parser::binary_or` = `binary_op!(self, start, binary_and, Or)`. -/
def binary_or : Nat → Token → Lexer → PRes (Node × Lexer)
  | 0, _, _ => .error .outOfFuel
  | fuel + 1, start, lx => do
    let (node, lx) ← binary_and fuel start lx
    binary_or_loop fuel node lx
termination_by structural fuel _ _ => fuel

/-- Loop of the `binary_op!` expansion in `binary_or`. -/
def binary_or_loop : Nat → Node → Lexer → PRes (Node × Lexer)
  | 0, _, _ => .error .outOfFuel
  | fuel + 1, node, lx =>
    match peek lx with
    | none => .ok (node, lx)
    | some token =>
      match token.token_type with
      | .Or => do
        let (operator, lx) ← unwrap_next lx
        let (start, lx) ← unwrap_next lx
        let (rhs, lx) ← binary_and fuel start lx
        binary_or_loop fuel (.Or node rhs operator.line operator.column) lx
      | _ => .ok (node, lx)
termination_by structural fuel _ _ => fuel

/-- Models `Parser::binary_and`. -/
def binary_and : Nat → Token → Lexer → PRes (Node × Lexer)
  | 0, _, _ => .error .outOfFuel
  | fuel + 1, start, lx => do
    let (node, lx) ← equality fuel start lx
    binary_and_loop fuel node lx
termination_by structural fuel _ _ => fuel

/-- Loop of the `binary_op!` expansion in `binary_and`. -/
def binary_and_loop : Nat → Node → Lexer → PRes (Node × Lexer)
  | 0, _, _ => .error .outOfFuel
  | fuel + 1, node, lx =>
    match peek lx with
    | none => .ok (node, lx)
    | some token =>
      match token.token_type with
      | .And => do
        let (operator, lx) ← unwrap_next lx
        let (start, lx) ← unwrap_next lx
        let (rhs, lx) ← equality fuel start lx
        binary_and_loop fuel (.And node rhs operator.line operator.column) lx
      | _ => .ok (node, lx)
termination_by structural fuel _ _ => fuel

/-- Models `Parser::equality`. -/
def equality : Nat → Token → Lexer → PRes (Node × Lexer)
  | 0, _, _ => .error .outOfFuel
  | fuel + 1, start, lx => do
    let (node, lx) ← compare fuel start lx
    equality_loop fuel node lx
termination_by structural fuel _ _ => fuel

/-- Loop of the `binary_op!` expansion in `equality`. -/
def equality_loop : Nat → Node → Lexer → PRes (Node × Lexer)
  | 0, _, _ => .error .outOfFuel
  | fuel + 1, node, lx =>
    match peek lx with
    | none => .ok (node, lx)
    | some token =>
      match token.token_type with
      | .Equal => do
        let (operator, lx) ← unwrap_next lx
        let (start, lx) ← unwrap_next lx
        let (rhs, lx) ← compare fuel start lx
        equality_loop fuel (.Equal node rhs operator.line operator.column) lx
      | .NotEqual => do
        let (operator, lx) ← unwrap_next lx
        let (start, lx) ← unwrap_next lx
        let (rhs, lx) ← compare fuel start lx
        equality_loop fuel (.NotEqual node rhs operator.line operator.column) lx
      | _ => .ok (node, lx)
termination_by structural fuel _ _ => fuel

/-- Models `Parser::compare`. -/
def compare : Nat → Token → Lexer → PRes (Node × Lexer)
  | 0, _, _ => .error .outOfFuel
  | fuel + 1, start, lx => do
    let (node, lx) ← bitwise_or fuel start lx
    compare_loop fuel node lx
termination_by structural fuel _ _ => fuel

/-- Loop of the `binary_op!` expansion in `compare`. -/
def compare_loop : Nat → Node → Lexer → PRes (Node × Lexer)
  | 0, _, _ => .error .outOfFuel
  | fuel + 1, node, lx =>
    match peek lx with
    | none => .ok (node, lx)
    | some token =>
      match token.token_type with
      | .Lower => do
        let (operator, lx) ← unwrap_next lx
        let (start, lx) ← unwrap_next lx
        let (rhs, lx) ← bitwise_or fuel start lx
        compare_loop fuel (.Lower node rhs operator.line operator.column) lx
      | .LowerEqual => do
        let (operator, lx) ← unwrap_next lx
        let (start, lx) ← unwrap_next lx
        let (rhs, lx) ← bitwise_or fuel start lx
        compare_loop fuel (.LowerEqual node rhs operator.line operator.column) lx
      | .Greater => do
        let (operator, lx) ← unwrap_next lx
        let (start, lx) ← unwrap_next lx
        let (rhs, lx) ← bitwise_or fuel start lx
        compare_loop fuel (.Greater node rhs operator.line operator.column) lx
      | .GreaterEqual => do
        let (operator, lx) ← unwrap_next lx
        let (start, lx) ← unwrap_next lx
        let (rhs, lx) ← bitwise_or fuel start lx
        compare_loop fuel (.GreaterEqual node rhs operator.line operator.column) lx
      | _ => .ok (node, lx)
termination_by structural fuel _ _ => fuel

/-- Models `Parser::bitwise_or`. -/
def bitwise_or : Nat → Token → Lexer → PRes (Node × Lexer)
  | 0, _, _ => .error .outOfFuel
  | fuel + 1, start, lx => do
    let (node, lx) ← bitwise_and fuel start lx
    bitwise_or_loop fuel node lx
termination_by structural fuel _ _ => fuel

/-- Loop of the `binary_op!` expansion in `bitwise_or`. -/
def bitwise_or_loop : Nat → Node → Lexer → PRes (Node × Lexer)
  | 0, _, _ => .error .outOfFuel
  | fuel + 1, node, lx =>
    match peek lx with
    | none => .ok (node, lx)
    | some token =>
      match token.token_type with
      | .BitwiseOr => do
        let (operator, lx) ← unwrap_next lx
        let (start, lx) ← unwrap_next lx
        let (rhs, lx) ← bitwise_and fuel start lx
        bitwise_or_loop fuel (.BitwiseOr node rhs operator.line operator.column) lx
      | .BitwiseXor => do
        let (operator, lx) ← unwrap_next lx
        let (start, lx) ← unwrap_next lx
        let (rhs, lx) ← bitwise_and fuel start lx
        bitwise_or_loop fuel (.BitwiseXor node rhs operator.line operator.column) lx
      | _ => .ok (node, lx)
termination_by structural fuel _ _ => fuel

/-- Models `Parser::bitwise_and`. -/
def bitwise_and : Nat → Token → Lexer → PRes (Node × Lexer)
  | 0, _, _ => .error .outOfFuel
  | fuel + 1, start, lx => do
    let (node, lx) ← bitwise_shift fuel start lx
    bitwise_and_loop fuel node lx
termination_by structural fuel _ _ => fuel

/-- Loop of the `binary_op!` expansion in `bitwise_and`. -/
def bitwise_and_loop : Nat → Node → Lexer → PRes (Node × Lexer)
  | 0, _, _ => .error .outOfFuel
  | fuel + 1, node, lx =>
    match peek lx with
    | none => .ok (node, lx)
    | some token =>
      match token.token_type with
      | .BitwiseAnd => do
        let (operator, lx) ← unwrap_next lx
        let (start, lx) ← unwrap_next lx
        let (rhs, lx) ← bitwise_shift fuel start lx
        bitwise_and_loop fuel (.BitwiseAnd node rhs operator.line operator.column) lx
      | _ => .ok (node, lx)
termination_by structural fuel _ _ => fuel

/-- Models `Parser::bitwise_shift`. -/
def bitwise_shift : Nat → Token → Lexer → PRes (Node × Lexer)
  | 0, _, _ => .error .outOfFuel
  | fuel + 1, start, lx => do
    let (node, lx) ← add_subtract fuel start lx
    bitwise_shift_loop fuel node lx
termination_by structural fuel _ _ => fuel

/-- Loop of the `binary_op!` expansion in `bitwise_shift`. -/
def bitwise_shift_loop : Nat → Node → Lexer → PRes (Node × Lexer)
  | 0, _, _ => .error .outOfFuel
  | fuel + 1, node, lx =>
    match peek lx with
    | none => .ok (node, lx)
    | some token =>
      match token.token_type with
      | .ShiftLeft => do
        let (operator, lx) ← unwrap_next lx
        let (start, lx) ← unwrap_next lx
        let (rhs, lx) ← add_subtract fuel start lx
        bitwise_shift_loop fuel (.ShiftLeft node rhs operator.line operator.column) lx
      | .ShiftRight => do
        let (operator, lx) ← unwrap_next lx
        let (start, lx) ← unwrap_next lx
        let (rhs, lx) ← add_subtract fuel start lx
        bitwise_shift_loop fuel (.ShiftRight node rhs operator.line operator.column) lx
      | _ => .ok (node, lx)
termination_by structural fuel _ _ => fuel

/-- Models `Parser::add_subtract`. -/
def add_subtract : Nat → Token → Lexer → PRes (Node × Lexer)
  | 0, _, _ => .error .outOfFuel
  | fuel + 1, start, lx => do
    let (node, lx) ← div_mod_mul fuel start lx
    add_subtract_loop fuel node lx
termination_by structural fuel _ _ => fuel

/-- Loop of the `binary_op!` expansion in `add_subtract`.  Note the
`lexer.next().unwrap()` for the right operand's start token: input ending
right after the operator panics. -/
def add_subtract_loop : Nat → Node → Lexer → PRes (Node × Lexer)
  | 0, _, _ => .error .outOfFuel
  | fuel + 1, node, lx =>
    match peek lx with
    | none => .ok (node, lx)
    | some token =>
      match token.token_type with
      | .Add => do
        let (operator, lx) ← unwrap_next lx
        let (start, lx) ← unwrap_next lx
        let (rhs, lx) ← div_mod_mul fuel start lx
        add_subtract_loop fuel (.Add node rhs operator.line operator.column) lx
      | .Sub => do
        let (operator, lx) ← unwrap_next lx
        let (start, lx) ← unwrap_next lx
        let (rhs, lx) ← div_mod_mul fuel start lx
        add_subtract_loop fuel (.Sub node rhs operator.line operator.column) lx
      | _ => .ok (node, lx)
termination_by structural fuel _ _ => fuel

/-- Models `Parser::div_mod_mul`. -/
def div_mod_mul : Nat → Token → Lexer → PRes (Node × Lexer)
  | 0, _, _ => .error .outOfFuel
  | fuel + 1, start, lx => do
    let (node, lx) ← pow fuel start lx
    div_mod_mul_loop fuel node lx
termination_by structural fuel _ _ => fuel

/-- Loop of the `binary_op!` expansion in `div_mod_mul`. -/
def div_mod_mul_loop : Nat → Node → Lexer → PRes (Node × Lexer)
  | 0, _, _ => .error .outOfFuel
  | fuel + 1, node, lx =>
    match peek lx with
    | none => .ok (node, lx)
    | some token =>
      match token.token_type with
      | .Div => do
        let (operator, lx) ← unwrap_next lx
        let (start, lx) ← unwrap_next lx
        let (rhs, lx) ← pow fuel start lx
        div_mod_mul_loop fuel (.Div node rhs operator.line operator.column) lx
      | .Mod => do
        let (operator, lx) ← unwrap_next lx
        let (start, lx) ← unwrap_next lx
        let (rhs, lx) ← pow fuel start lx
        div_mod_mul_loop fuel (.Mod node rhs operator.line operator.column) lx
      | .Mul => do
        let (operator, lx) ← unwrap_next lx
        let (start, lx) ← unwrap_next lx
        let (rhs, lx) ← pow fuel start lx
        div_mod_mul_loop fuel (.Mul node rhs operator.line operator.column) lx
      | _ => .ok (node, lx)
termination_by structural fuel _ _ => fuel

/-- Models `Parser::pow`. -/
def pow : Nat → Token → Lexer → PRes (Node × Lexer)
  | 0, _, _ => .error .outOfFuel
  | fuel + 1, start, lx => do
    let (node, lx) ← range fuel start lx
    pow_loop fuel node lx
termination_by structural fuel _ _ => fuel

/-- Loop of the `binary_op!` expansion in `pow`. -/
def pow_loop : Nat → Node → Lexer → PRes (Node × Lexer)
  | 0, _, _ => .error .outOfFuel
  | fuel + 1, node, lx =>
    match peek lx with
    | none => .ok (node, lx)
    | some token =>
      match token.token_type with
      | .Pow => do
        let (operator, lx) ← unwrap_next lx
        let (start, lx) ← unwrap_next lx
        let (rhs, lx) ← range fuel start lx
        pow_loop fuel (.Pow node rhs operator.line operator.column) lx
      | _ => .ok (node, lx)
termination_by structural fuel _ _ => fuel

/-- Models `Parser::range`. -/
def range : Nat → Token → Lexer → PRes (Node × Lexer)
  | 0, _, _ => .error .outOfFuel
  | fuel + 1, start, lx => do
    let (node, lx) ← bracket_send fuel start lx
    range_loop fuel node lx
termination_by structural fuel _ _ => fuel

/-- Loop of the `binary_op!` expansion in `range`. -/
def range_loop : Nat → Node → Lexer → PRes (Node × Lexer)
  | 0, _, _ => .error .outOfFuel
  | fuel + 1, node, lx =>
    match peek lx with
    | none => .ok (node, lx)
    | some token =>
      match token.token_type with
      | .InclusiveRange => do
        let (operator, lx) ← unwrap_next lx
        let (start, lx) ← unwrap_next lx
        let (rhs, lx) ← bracket_send fuel start lx
        range_loop fuel (.InclusiveRange node rhs operator.line operator.column) lx
      | .ExclusiveRange => do
        let (operator, lx) ← unwrap_next lx
        let (start, lx) ← unwrap_next lx
        let (rhs, lx) ← bracket_send fuel start lx
        range_loop fuel (.ExclusiveRange node rhs operator.line operator.column) lx
      | _ => .ok (node, lx)
termination_by structural fuel _ _ => fuel

/-- Models `Parser::bracket_send`: parses `X[Y]` and `X[Y] = Z`. -/
def bracket_send : Nat → Token → Lexer → PRes (Node × Lexer)
  | 0, _, _ => .error .outOfFuel
  | fuel + 1, start, lx => do
    let start_line := start.line
    let (node, lx) ← type_cast fuel start lx
    bracket_send_loop fuel start_line node lx
termination_by structural fuel _ _ => fuel

/-- Loop of `Parser::bracket_send`: a following `[` is only treated as a
send when it lies on the same line as the expression's start token. -/
def bracket_send_loop : Nat → Nat → Node → Lexer → PRes (Node × Lexer)
  | 0, _, _, _ => .error .outOfFuel
  | fuel + 1, start_line, node, lx =>
    if next_type_is lx TokenType.BracketOpen then
      match peek lx with
      | none => .error (.panicked unwrapMsg)
      | some token =>
        if token.line ≠ start_line then
          .ok (node, lx)
        else do
          let (bracket, lx) ← unwrap_next lx
          let ((name, args), lx) ← bracket_get_or_set fuel lx
          bracket_send_loop fuel start_line
            (.Send name (some node) args bracket.line bracket.column) lx
    else
      .ok (node, lx)
termination_by structural fuel _ _ _ => fuel

/-- Models `Parser::bracket_get_or_set`: parses `[X]` or `[X] = Y` after
the opening bracket was consumed, returning the message name and args. -/
def bracket_get_or_set : Nat → Lexer → PRes ((String × List Node) × Lexer)
  | 0, _ => .error .outOfFuel
  | fuel + 1, lx => do
    let (args, lx) ← bracket_get_or_set_loop fuel [] lx
    if next_type_is lx TokenType.Assign then do
      let lx := lx.tail
      let (start, lx) ← next_or_error lx
      let (value_node, lx) ← expression fuel start lx
      .ok (("[]=", args ++ [value_node]), lx)
    else
      .ok (("[]", args), lx)
termination_by structural fuel _ => fuel

/-- Loop of `Parser::bracket_get_or_set`. -/
def bracket_get_or_set_loop : Nat → List Node → Lexer → PRes (List Node × Lexer)
  | 0, _, _ => .error .outOfFuel
  | fuel + 1, args, lx =>
    match lx with
    | [] => .ok (args, [])
    | start :: rest =>
      if start.token_type == TokenType.BracketClose then
        .ok (args, rest)
      else do
        let (arg, lx) ← expression fuel start rest
        let args := args ++ [arg]
        if next_type_is lx TokenType.Comma then
          bracket_get_or_set_loop fuel args lx.tail
        else
          match peek lx with
          | some nxt =>
            if nxt.token_type != TokenType.BracketClose then
              .error (.returned ("Unexpected token " ++ tokenTypeName nxt.token_type))
            else
              bracket_get_or_set_loop fuel args lx
          | none => .error (.returned "Unexpected end of input")
termination_by structural fuel _ _ => fuel

/-- Models `Parser::type_cast`. -/
def type_cast : Nat → Token → Lexer → PRes (Node × Lexer)
  | 0, _, _ => .error .outOfFuel
  | fuel + 1, start, lx => do
    let (node, lx) ← send_chain fuel start lx
    if next_type_is lx TokenType.As then do
      let (op, lx) ← next_or_error lx
      let (token, lx) ← next_or_error lx
      let (tname, lx) ← type_name fuel token lx
      .ok (.TypeCast node tname op.line op.column, lx)
    else
      .ok (node, lx)
termination_by structural fuel _ _ => fuel

/-- Models `Parser::send_chain`. -/
def send_chain : Nat → Token → Lexer → PRes (Node × Lexer)
  | 0, _, _ => .error .outOfFuel
  | fuel + 1, start, lx => do
    let (node, lx) ← value fuel start lx
    send_chain_loop fuel node lx
termination_by structural fuel _ _ => fuel

/-- Loop of `Parser::send_chain`: `while next_type_is(Dot)`. -/
def send_chain_loop : Nat → Node → Lexer → PRes (Node × Lexer)
  | 0, _, _ => .error .outOfFuel
  | fuel + 1, node, lx =>
    if next_type_is lx TokenType.Dot then do
      let lx := lx.tail
      let ((name, line, column), lx) ← send_name lx
      let (args, lx) ← send_chain_arguments fuel line lx
      send_chain_loop fuel (.Send name (some node) args line column) lx
    else
      .ok (node, lx)
termination_by structural fuel _ _ => fuel

/-- Models `Parser::send_chain_arguments`. -/
def send_chain_arguments : Nat → Nat → Lexer → PRes (List Node × Lexer)
  | 0, _, _ => .error .outOfFuel
  | fuel + 1, line, lx =>
    if next_type_is lx TokenType.ParenOpen then
      arguments_with_parenthesis fuel lx
    else
      if next_expression_is_argument lx line then
        arguments_without_parenthesis fuel lx
      else
        .ok ([], lx)
termination_by structural fuel _ _ => fuel

/-- Models `Parser::arguments_with_parenthesis` (the opening parenthesis
is skipped on entry). -/
def arguments_with_parenthesis : Nat → Lexer → PRes (List Node × Lexer)
  | 0, _ => .error .outOfFuel
  | fuel + 1, lx => arguments_with_parenthesis_loop fuel [] lx.tail
termination_by structural fuel _ => fuel

/-- Loop of `Parser::arguments_with_parenthesis`.  When the stream runs
out, the loop simply ends and the arguments seen so far are returned. -/
def arguments_with_parenthesis_loop : Nat → List Node → Lexer → PRes (List Node × Lexer)
  | 0, _, _ => .error .outOfFuel
  | fuel + 1, args, lx =>
    match lx with
    | [] => .ok (args, [])
    | token :: rest =>
      if token.token_type == TokenType.ParenClose then
        .ok (args, rest)
      else do
        let (arg, lx) ← send_argument fuel token rest
        let args := args ++ [arg]
        if next_type_is lx TokenType.Comma then
          arguments_with_parenthesis_loop fuel args lx.tail
        else
          match peek lx with
          | some tok =>
            if tok.token_type != TokenType.ParenClose then
              .error (.returned ("Expected a comma, not a " ++ tokenTypeName tok.token_type))
            else
              arguments_with_parenthesis_loop fuel args lx
          | none => arguments_with_parenthesis_loop fuel args lx
termination_by structural fuel _ _ => fuel

/-- Models `Parser::arguments_without_parenthesis`. -/
def arguments_without_parenthesis : Nat → Lexer → PRes (List Node × Lexer)
  | 0, _ => .error .outOfFuel
  | fuel + 1, lx => arguments_without_parenthesis_loop fuel [] lx
termination_by structural fuel _ => fuel

/-- Loop of `Parser::arguments_without_parenthesis`. -/
def arguments_without_parenthesis_loop : Nat → List Node → Lexer → PRes (List Node × Lexer)
  | 0, _, _ => .error .outOfFuel
  | fuel + 1, args, lx =>
    match lx with
    | [] => .ok (args, [])
    | token :: rest => do
      let (arg, lx) ← send_argument fuel token rest
      let args := args ++ [arg]
      if next_type_is lx TokenType.Comma then
        arguments_without_parenthesis_loop fuel args lx.tail
      else
        .ok (args, lx)
termination_by structural fuel _ _ => fuel

/-- Models `Parser::send_argument`: any first token whose *next* token is
a colon produces a `KeywordArgument` named after the first token's text. -/
def send_argument : Nat → Token → Lexer → PRes (Node × Lexer)
  | 0, _, _ => .error .outOfFuel
  | fuel + 1, start, lx =>
    if next_type_is lx TokenType.Colon then do
      let lx := lx.tail
      let (token, lx) ← next_or_error lx
      let (value_node, lx) ← expression fuel token lx
      .ok (.KeywordArgument start.value value_node start.line start.column, lx)
    else
      expression fuel start lx
termination_by structural fuel _ _ => fuel

/-- Models `Parser::value`: dispatch on the start token's kind. -/
def value : Nat → Token → Lexer → PRes (Node × Lexer)
  | 0, _, _ => .error .outOfFuel
  | fuel + 1, start, lx =>
    match start.token_type with
    | .String => string start lx
    | .Integer => integer start lx
    | .Float => float start lx
    | .Identifier => identifier fuel start lx
    | .Constant => constant fuel start lx
    | .CurlyOpen => closure_without_arguments fuel start lx
    | .Sub => negative_number start lx
    | .BracketOpen => array fuel start lx
    | .HashOpen => hash fuel start lx
    | .Function => method_or_closure fuel start lx
    | .Let => let_define fuel start lx
    | .Var => var_define fuel start lx
    | .Class => def_class fuel start lx
    | .Trait => def_trait fuel start lx
    | .Return => return_value fuel start lx
    | .Comment => comment start lx
    | .Type => def_type fuel start lx
    | .Attribute => attribute_expr fuel start lx
    | .SelfObject => self_object start lx
    | .Throw => throw fuel start lx
    | .Try => try_expression fuel start lx
    | _ =>
      .error (.returned ("An expression can not start with "
        ++ tokenTypeName start.token_type))
termination_by structural fuel _ _ => fuel

/-- Models `Parser::identifier`, including the `send_or!` macro body: a
bare identifier becomes a receiver-less `Send` when followed by `(` or by
a same-line value-starter token. -/
def identifier : Nat → Token → Lexer → PRes (Node × Lexer)
  | 0, _, _ => .error .outOfFuel
  | fuel + 1, start, lx =>
    if next_type_is lx TokenType.Assign then
      reassign_local fuel start lx
    else
      if next_type_is lx TokenType.ParenOpen then do
        let (args, lx) ← arguments_with_parenthesis fuel lx
        .ok (.Send start.value none args start.line start.column, lx)
      else
        if next_expression_is_argument lx start.line then do
          let (args, lx) ← arguments_without_parenthesis fuel lx
          .ok (.Send start.value none args start.line start.column, lx)
        else
          .ok (identifier_from_token start, lx)
termination_by structural fuel _ _ => fuel

/-- Models `Parser::attribute`. -/
def attribute_expr : Nat → Token → Lexer → PRes (Node × Lexer)
  | 0, _, _ => .error .outOfFuel
  | fuel + 1, start, lx =>
    if next_type_is lx TokenType.Assign then
      reassign_attribute fuel start lx
    else
      .ok (attribute_from_token start, lx)
termination_by structural fuel _ _ => fuel

/-- Models `Parser::reassign_local`. -/
def reassign_local : Nat → Token → Lexer → PRes (Node × Lexer)
  | 0, _, _ => .error .outOfFuel
  | fuel + 1, start, lx => do
    let lx := lx.tail
    let line := start.line
    let column := start.column
    let local_node := identifier_from_token start
    let (token, lx) ← next_or_error lx
    let (value_node, lx) ← expression fuel token lx
    .ok (.Reassign local_node value_node line column, lx)
termination_by structural fuel _ _ => fuel

/-- Models `Parser::reassign_attribute`. -/
def reassign_attribute : Nat → Token → Lexer → PRes (Node × Lexer)
  | 0, _, _ => .error .outOfFuel
  | fuel + 1, start, lx => do
    let lx := lx.tail
    let line := start.line
    let column := start.column
    let attr_node := attribute_from_token start
    let (token, lx) ← next_or_error lx
    let (value_node, lx) ← expression fuel token lx
    .ok (.Reassign attr_node value_node line column, lx)
termination_by structural fuel _ _ => fuel

/-- Models `Parser::constant`. -/
def constant : Nat → Token → Lexer → PRes (Node × Lexer)
  | 0, _, _ => .error .outOfFuel
  | fuel + 1, start, lx => constant_loop fuel (constant_from_token start none) lx

/-- Loop of `Parser::constant`: `while next_type_is(ColonColon)`. -/
def constant_loop : Nat → Node → Lexer → PRes (Node × Lexer)
  | 0, _, _ => .error .outOfFuel
  | fuel + 1, node, lx =>
    if next_type_is lx TokenType.ColonColon then do
      let lx := lx.tail
      let (start, lx) ← next_of_type lx TokenType.Constant
      constant_loop fuel (constant_from_token start (some node)) lx
    else
      .ok (node, lx)
termination_by structural fuel _ _ => fuel

/-- Models `Parser::type_name`. -/
def type_name : Nat → Token → Lexer → PRes (Node × Lexer)
  | 0, _, _ => .error .outOfFuel
  | fuel + 1, start, lx => do
    let line := start.line
    let column := start.column
    let (node, lx) ← constant fuel start lx
    let (args, lx) ← optional_type_arguments fuel lx
    let (rtype, lx) ← optional_return_type fuel lx
    .ok (.TypeName node args rtype line column, lx)
termination_by structural fuel _ _ => fuel

/-- Models `Parser::type_name_or_union_type`. -/
def type_name_or_union_type : Nat → Token → Lexer → PRes (Node × Lexer)
  | 0, _, _ => .error .outOfFuel
  | fuel + 1, start, lx => do
    let line := start.line
    let col := start.column
    let (node, lx) ← type_name fuel start lx
    if next_type_is lx TokenType.BitwiseOr then do
      let (types, lx) ← union_type_loop fuel [node] lx
      .ok (.UnionType types line col, lx)
    else
      .ok (node, lx)
termination_by structural fuel _ _ => fuel

/-- Loop of `Parser::type_name_or_union_type`. -/
def union_type_loop : Nat → List Node → Lexer → PRes (List Node × Lexer)
  | 0, _, _ => .error .outOfFuel
  | fuel + 1, types, lx =>
    if next_type_is lx TokenType.BitwiseOr then do
      let lx := lx.tail
      let (start, lx) ← next_or_error lx
      let (t, lx) ← type_name fuel start lx
      union_type_loop fuel (types ++ [t]) lx
    else
      .ok (types, lx)
termination_by structural fuel _ _ => fuel

/-- Models `Parser::closure`. -/
def closure : Nat → Token → Lexer → PRes (Node × Lexer)
  | 0, _, _ => .error .outOfFuel
  | fuel + 1, start, lx => do
    let (args, lx) ← optional_arguments fuel lx
    let (ret_type, lx) ← optional_return_type fuel lx
    let (_, lx) ← next_of_type lx TokenType.CurlyOpen
    let (body, lx) ← block fuel lx
    .ok (.Closure args ret_type body start.line start.column, lx)
termination_by structural fuel _ _ => fuel

/-- Models `Parser::closure_without_arguments`. -/
def closure_without_arguments : Nat → Token → Lexer → PRes (Node × Lexer)
  | 0, _, _ => .error .outOfFuel
  | fuel + 1, start, lx => do
    let (body, lx) ← block fuel lx
    .ok (.Closure [] none body start.line start.column, lx)
termination_by structural fuel _ _ => fuel

/-- Models `Parser::def_arguments`. -/
def def_arguments : Nat → Lexer → PRes (List Node × Lexer)
  | 0, _ => .error .outOfFuel
  | fuel + 1, lx => def_arguments_loop fuel [] lx
termination_by structural fuel _ => fuel

/-- Loop of `Parser::def_arguments`. -/
def def_arguments_loop : Nat → List Node → Lexer → PRes (List Node × Lexer)
  | 0, _, _ => .error .outOfFuel
  | fuel + 1, args, lx =>
    match peek lx with
    | none => .ok (args, lx)
    | some _ =>
      if next_type_is lx TokenType.ParenClose then
        .ok (args, lx.tail)
      else do
        let (rest_flag, lx) :=
          if next_type_is lx TokenType.Mul then (true, lx.tail) else (false, lx)
        match lx with
        | [] => .ok (args, [])
        | token :: lx => do
          let (arg_type, lx) ← def_argument_type fuel lx
          let (dflt, lx) ←
            if next_type_is lx TokenType.Assign then do
              let lx := lx.tail
              let (start, lx) ← next_or_error lx
              let (e, lx) ← expression fuel start lx
              pure (some e, lx)
            else
              pure (none, lx)
          let args := args ++
            [Node.ArgumentDefine token.value arg_type dflt token.line token.column rest_flag]
          match comma_or_break_on lx TokenType.ParenClose with
          | .error e => .error e
          | .ok (true, lx) => def_arguments_loop fuel args lx
          | .ok (false, lx) => .ok (args, lx)
termination_by structural fuel _ _ => fuel

/-- Models `Parser::def_argument_type`. -/
def def_argument_type : Nat → Lexer → PRes (Option Node × Lexer)
  | 0, _ => .error .outOfFuel
  | fuel + 1, lx =>
    if next_type_is lx TokenType.Colon then do
      let lx := lx.tail
      let (start, lx) ← next_or_error lx
      let (vtype, lx) ← type_name_or_union_type fuel start lx
      .ok (some vtype, lx)
    else
      .ok (none, lx)

/-- Models `Parser::optional_type_arguments`. -/
def optional_type_arguments : Nat → Lexer → PRes (List Node × Lexer)
  | 0, _ => .error .outOfFuel
  | fuel + 1, lx =>
    if next_type_is lx TokenType.TypeArgsOpen then
      type_arguments fuel lx.tail
    else
      .ok ([], lx)
termination_by structural fuel _ => fuel

/-- Models `Parser::type_arguments`. -/
def type_arguments : Nat → Lexer → PRes (List Node × Lexer)
  | 0, _ => .error .outOfFuel
  | fuel + 1, lx => type_arguments_loop fuel [] lx
termination_by structural fuel _ => fuel

/-- Loop of `Parser::type_arguments`. -/
def type_arguments_loop : Nat → List Node → Lexer → PRes (List Node × Lexer)
  | 0, _, _ => .error .outOfFuel
  | fuel + 1, args, lx => do
    let (start, lx) ← next_or_error lx
    let (tname, lx) ← type_name fuel start lx
    let args := args ++ [tname]
    match comma_or_break_on lx TokenType.ParenClose with
    | .error e => .error e
    | .ok (true, lx) => type_arguments_loop fuel args lx
    | .ok (false, lx) => .ok (args, lx)
termination_by structural fuel _ _ => fuel

/-- Models `Parser::array`. -/
def array : Nat → Token → Lexer → PRes (Node × Lexer)
  | 0, _, _ => .error .outOfFuel
  | fuel + 1, start, lx => array_loop fuel start [] lx
termination_by structural fuel _ _ => fuel

/-- Loop of `Parser::array`. -/
def array_loop : Nat → Token → List Node → Lexer → PRes (Node × Lexer)
  | 0, _, _, _ => .error .outOfFuel
  | fuel + 1, start, values, lx => do
    let (expr_start, lx) ← next_or_error lx
    if expr_start.token_type == TokenType.BracketClose then
      .ok (.Array values start.line start.column, lx)
    else do
      let (v, lx) ← expression fuel expr_start lx
      let values := values ++ [v]
      match comma_or_break_on lx TokenType.BracketClose with
      | .error e => .error e
      | .ok (true, lx) => array_loop fuel start values lx
      | .ok (false, lx) => .ok (.Array values start.line start.column, lx)
termination_by structural fuel _ _ _ => fuel

/-- Models `Parser::hash`. -/
def hash : Nat → Token → Lexer → PRes (Node × Lexer)
  | 0, _, _ => .error .outOfFuel
  | fuel + 1, start, lx => hash_loop fuel start [] lx
termination_by structural fuel _ _ => fuel

/-- Loop of `Parser::hash`. -/
def hash_loop : Nat → Token → List (Node × Node) → Lexer → PRes (Node × Lexer)
  | 0, _, _, _ => .error .outOfFuel
  | fuel + 1, start, pairs, lx => do
    let (key_start, lx) ← next_or_error lx
    if key_start.token_type == TokenType.CurlyClose then
      .ok (.Hash pairs start.line start.column, lx)
    else do
      let (key, lx) ← expression fuel key_start lx
      let (_, lx) ← next_of_type lx TokenType.Colon
      let (val_start, lx) ← next_or_error lx
      let (val, lx) ← expression fuel val_start lx
      let pairs := pairs ++ [(key, val)]
      match comma_or_break_on lx TokenType.CurlyClose with
      | .error e => .error e
      | .ok (true, lx) => hash_loop fuel start pairs lx
      | .ok (false, lx) => .ok (.Hash pairs start.line start.column, lx)
termination_by structural fuel _ _ _ => fuel

/-- Models `Parser::method_or_closure`. -/
def method_or_closure : Nat → Token → Lexer → PRes (Node × Lexer)
  | 0, _, _ => .error .outOfFuel
  | fuel + 1, start, lx =>
    match peek lx with
    | none =>
      .error (.returned
        "Expected \"fn\" to be followed by an identifier or an arguments list")
    | some token =>
      match token.token_type with
      | .ParenOpen | .CurlyOpen | .Arrow => closure fuel start lx
      | _ => def_method fuel start lx
termination_by structural fuel _ _ => fuel

/-- Models `Parser::def_method`. -/
def def_method : Nat → Token → Lexer → PRes (Node × Lexer)
  | 0, _, _ => .error .outOfFuel
  | fuel + 1, start, lx => do
    let (left, lx) ← next_or_error lx
    let ((receiver, name), lx) ←
      if next_type_is lx TokenType.Dot then do
        let (receiver, lx) ← value fuel left lx
        let (_, lx) ← next_of_type lx TokenType.Dot
        let (right, lx) ← next_or_error lx
        let (nm, lx) ← message_name_for_token right lx
        pure (((some receiver, nm), lx) : (Option Node × String) × Lexer)
      else do
        let (nm, lx) ← message_name_for_token left lx
        pure (((none, nm), lx) : (Option Node × String) × Lexer)
    let (targs, lx) ← optional_type_arguments fuel lx
    let (arguments, lx) ← optional_arguments fuel lx
    let (return_type, lx) ← optional_return_type fuel lx
    let (throw_type, lx) ← optional_throw_type fuel lx
    let (body, lx) ←
      if next_type_is lx TokenType.CurlyOpen then do
        let (_, lx) ← next_of_type lx TokenType.CurlyOpen
        let (b, lx) ← block fuel lx
        pure ((some b, lx) : Option Node × Lexer)
      else
        pure ((none, lx) : Option Node × Lexer)
    .ok (.Method receiver name arguments targs return_type throw_type body
      start.line start.column, lx)
termination_by structural fuel _ _ => fuel

/-- Models `Parser::let_define`. -/
def let_define : Nat → Token → Lexer → PRes (Node × Lexer)
  | 0, _, _ => .error .outOfFuel
  | fuel + 1, start, lx => do
    let (name, lx) ← variable_name lx
    let (value_type, lx) ← optional_variable_type fuel lx
    let (value_node, lx) ← variable_value fuel lx
    .ok (.LetDefine name value_node value_type start.line start.column, lx)
termination_by structural fuel _ _ => fuel

/-- Models `Parser::var_define`. -/
def var_define : Nat → Token → Lexer → PRes (Node × Lexer)
  | 0, _, _ => .error .outOfFuel
  | fuel + 1, start, lx => do
    let (name, lx) ← variable_name lx
    let (value_type, lx) ← optional_variable_type fuel lx
    let (value_node, lx) ← variable_value fuel lx
    .ok (.VarDefine name value_node value_type start.line start.column, lx)
termination_by structural fuel _ _ => fuel

/-- Models `Parser::optional_variable_type`. -/
def optional_variable_type : Nat → Lexer → PRes (Option Node × Lexer)
  | 0, _ => .error .outOfFuel
  | fuel + 1, lx =>
    if next_type_is lx TokenType.Colon then do
      let lx := lx.tail
      let (start, lx) ← next_of_type lx TokenType.Constant
      let (c, lx) ← constant fuel start lx
      .ok (some c, lx)
    else
      .ok (none, lx)

/-- Models `Parser::variable_value`. -/
def variable_value : Nat → Lexer → PRes (Node × Lexer)
  | 0, _ => .error .outOfFuel
  | fuel + 1, lx => do
    let (_, lx) ← next_of_type lx TokenType.Assign
    let (start, lx) ← next_or_error lx
    expression fuel start lx
termination_by structural fuel _ => fuel

/-- Models `Parser::class`. -/
def def_class : Nat → Token → Lexer → PRes (Node × Lexer)
  | 0, _, _ => .error .outOfFuel
  | fuel + 1, start, lx => do
    let (name, lx) ← next_of_type lx TokenType.Constant
    let (type_args, lx) ← optional_type_arguments fuel lx
    let (implements, lx) ← def_class_impl_loop fuel [] lx
    let (_, lx) ← next_of_type lx TokenType.CurlyOpen
    let (body, lx) ← block fuel lx
    .ok (.Class name.value type_args implements body start.line start.column, lx)
termination_by structural fuel _ _ => fuel

/-- Loop of `Parser::class`: `while next_type_is(Impl)`. -/
def def_class_impl_loop : Nat → List Node → Lexer → PRes (List Node × Lexer)
  | 0, _, _ => .error .outOfFuel
  | fuel + 1, implements, lx =>
    if next_type_is lx TokenType.Impl then do
      let (start, lx) ← next_or_error lx
      let (impl_node, lx) ← implement_trait fuel start lx
      def_class_impl_loop fuel (implements ++ [impl_node]) lx
    else
      .ok (implements, lx)
termination_by structural fuel _ _ => fuel

/-- Models `Parser::def_trait`.  (The source parses the body with
`block()` without first consuming a `{`, which is translated as-is.) -/
def def_trait : Nat → Token → Lexer → PRes (Node × Lexer)
  | 0, _, _ => .error .outOfFuel
  | fuel + 1, start, lx => do
    let (name, lx) ← next_of_type lx TokenType.Constant
    let (type_args, lx) ← optional_type_arguments fuel lx
    let (body, lx) ← block fuel lx
    .ok (.Trait name.value type_args body start.line start.column, lx)
termination_by structural fuel _ _ => fuel

/-- Models `Parser::return_value`. -/
def return_value : Nat → Token → Lexer → PRes (Node × Lexer)
  | 0, _, _ => .error .outOfFuel
  | fuel + 1, start, lx =>
    if next_expression_is_argument lx start.line then do
      let (next_token, lx) ← unwrap_next lx
      let (v, lx) ← expression fuel next_token lx
      .ok (.Return (some v) start.line start.column, lx)
    else
      .ok (.Return none start.line start.column, lx)
termination_by structural fuel _ _ => fuel

/-- Models `Parser::implement_trait`. -/
def implement_trait : Nat → Token → Lexer → PRes (Node × Lexer)
  | 0, _, _ => .error .outOfFuel
  | fuel + 1, start, lx => do
    let (token, lx) ← next_or_error lx
    let (name, lx) ← type_name fuel token lx
    let (type_args, lx) ← optional_type_arguments fuel lx
    let (renames, lx) ←
      if next_type_is lx TokenType.ParenOpen then
        trait_renames fuel lx.tail
      else
        pure (([], lx) : List (Node × Node) × Lexer)
    .ok (.Implement name type_args renames start.line start.column, lx)

/-- Models `Parser::trait_renames`. -/
def trait_renames : Nat → Lexer → PRes (List (Node × Node) × Lexer)
  | 0, _ => .error .outOfFuel
  | fuel + 1, lx => do
    let (renames, lx) ← trait_renames_loop fuel [] lx
    let (_, lx) ← next_of_type lx TokenType.ParenClose
    .ok (renames, lx)

/-- Loop of `Parser::trait_renames`. -/
def trait_renames_loop : Nat → List (Node × Node) → Lexer → PRes (List (Node × Node) × Lexer)
  | 0, _, _ => .error .outOfFuel
  | fuel + 1, renames, lx => do
    let (t1, lx) ← next_of_type lx TokenType.Identifier
    let src_name := identifier_from_token t1
    let (_, lx) ← next_of_type lx TokenType.As
    let (t2, lx) ← next_of_type lx TokenType.Identifier
    let new_name := identifier_from_token t2
    let renames := renames ++ [(src_name, new_name)]
    if next_type_is lx TokenType.Comma then
      trait_renames_loop fuel renames lx.tail
    else
      .ok (renames, lx)
termination_by structural fuel _ _ => fuel

/-- Models `Parser::import`. -/
def import_expression : Nat → Token → Lexer → PRes (Node × Lexer)
  | 0, _, _ => .error .outOfFuel
  | fuel + 1, start, lx => do
    let ((steps, symbols), lx) ← import_loop fuel [] [] lx
    .ok (.Import steps symbols start.line start.column, lx)

/-- Loop of `Parser::import`. -/
def import_loop : Nat → List Node → List Node → Lexer →
    PRes ((List Node × List Node) × Lexer)
  | 0, _, _, _ => .error .outOfFuel
  | fuel + 1, steps, symbols, lx => do
    let (step, lx) ← next_or_error lx
    match step.token_type with
    | .Constant =>
      .ok ((steps,
        symbols ++ [Node.ImportSymbol (constant_from_token step none) none]), lx)
    | .Identifier =>
      let steps := steps ++ [identifier_from_token step]
      if next_type_is lx TokenType.ColonColon then
        let lx := lx.tail
        if next_type_is lx TokenType.ParenOpen then do
          let lx := lx.tail
          let (symbols2, lx) ← import_symbols fuel lx
          .ok ((steps, symbols2), lx)
        else
          import_loop fuel steps symbols lx
      else
        .ok ((steps, symbols), lx)
    | _ =>
      .error (.returned ("Unexpected " ++ tokenTypeName step.token_type
        ++ ", expected an identifier or constant"))
termination_by structural fuel _ _ _ => fuel

/-- Models `Parser::import_symbols`. -/
def import_symbols : Nat → Lexer → PRes (List Node × Lexer)
  | 0, _ => .error .outOfFuel
  | fuel + 1, lx => import_symbols_loop fuel [] lx

/-- Loop of `Parser::import_symbols`. -/
def import_symbols_loop : Nat → List Node → Lexer → PRes (List Node × Lexer)
  | 0, _, _ => .error .outOfFuel
  | fuel + 1, symbols, lx => do
    let (start, lx) ← next_of_type lx TokenType.Constant
    let symbol := constant_from_token start none
    let (alias_node, lx) ←
      if next_type_is lx TokenType.As then do
        let lx := lx.tail
        let (t, lx) ← next_of_type lx TokenType.Constant
        pure ((some (constant_from_token t none), lx) : Option Node × Lexer)
      else
        pure ((none, lx) : Option Node × Lexer)
    let symbols := symbols ++ [Node.ImportSymbol symbol alias_node]
    match comma_or_break_on lx TokenType.ParenClose with
    | .error e => .error e
    | .ok (true, lx) => import_symbols_loop fuel symbols lx
    | .ok (false, lx) => .ok (symbols, lx)
termination_by structural fuel _ _ => fuel

/-- Models `Parser::def_type`. -/
def def_type : Nat → Token → Lexer → PRes (Node × Lexer)
  | 0, _, _ => .error .outOfFuel
  | fuel + 1, start, lx => do
    let (token, lx) ← next_or_error lx
    let (name, lx) ← type_name fuel token lx
    let (_, lx) ← next_of_type lx TokenType.Assign
    let (token2, lx) ← next_or_error lx
    let (value_node, lx) ← type_name_or_union_type fuel token2 lx
    .ok (.TypeDefine name value_node start.line start.column, lx)

/-- Models `Parser::block`. -/
def block : Nat → Lexer → PRes (Node × Lexer)
  | 0, _ => .error .outOfFuel
  | fuel + 1, lx => block_loop fuel [] lx
termination_by structural fuel _ => fuel

/-- Loop of `Parser::block`. -/
def block_loop : Nat → List Node → Lexer → PRes (Node × Lexer)
  | 0, _, _ => .error .outOfFuel
  | fuel + 1, body, lx =>
    match lx with
    | [] => .ok (.Expressions body, [])
    | token :: rest =>
      if token.token_type == TokenType.CurlyClose then
        .ok (.Expressions body, rest)
      else do
        let (e, lx) ← expression fuel token rest
        block_loop fuel (body ++ [e]) lx
termination_by structural fuel _ _ => fuel

/-- Models `Parser::block_with_optional_curly_braces`. -/
def block_with_optional_curly_braces : Nat → Lexer → PRes (Node × Lexer)
  | 0, _ => .error .outOfFuel
  | fuel + 1, lx =>
    if next_type_is lx TokenType.CurlyOpen then do
      let (_, lx) ← next_or_error lx
      block fuel lx
    else do
      let (start, lx) ← next_or_error lx
      let (e, lx) ← expression fuel start lx
      .ok (.Expressions [e], lx)
termination_by structural fuel _ => fuel

/-- Models `Parser::try` (named `try_expression` because `try` is reserved
in Lean). -/
def try_expression : Nat → Token → Lexer → PRes (Node × Lexer)
  | 0, _, _ => .error .outOfFuel
  | fuel + 1, start, lx => do
    let (body, lx) ← block_with_optional_curly_braces fuel lx
    if next_type_is lx TokenType.Else then do
      let (_, lx) ← next_or_error lx
      let (else_arg, lx) ← optional_else_arg fuel lx
      let (else_body, lx) ← block_with_optional_curly_braces fuel lx
      .ok (.Try body (some else_body) else_arg start.line start.column, lx)
    else
      .ok (.Try body none none start.line start.column, lx)
termination_by structural fuel _ _ => fuel

/-- Models `Parser::optional_else_arg`. -/
def optional_else_arg : Nat → Lexer → PRes (Option Node × Lexer)
  | 0, _ => .error .outOfFuel
  | _ + 1, lx =>
    if next_type_is lx TokenType.ParenOpen then do
      let (_, lx) ← next_or_error lx
      let (name, lx) ← next_of_type lx TokenType.Identifier
      let (_, lx) ← next_of_type lx TokenType.ParenClose
      .ok (some (identifier_from_token name), lx)
    else
      .ok (none, lx)

/-- Models `Parser::throw`. -/
def throw : Nat → Token → Lexer → PRes (Node × Lexer)
  | 0, _, _ => .error .outOfFuel
  | fuel + 1, start, lx => do
    let (expr_start, lx) ← next_or_error lx
    let (v, lx) ← expression fuel expr_start lx
    .ok (.Throw v start.line start.column, lx)
termination_by structural fuel _ _ => fuel

/-- Models `Parser::optional_arguments`. -/
def optional_arguments : Nat → Lexer → PRes (List Node × Lexer)
  | 0, _ => .error .outOfFuel
  | fuel + 1, lx =>
    if next_type_is lx TokenType.ParenOpen then
      def_arguments fuel lx.tail
    else
      .ok ([], lx)
termination_by structural fuel _ => fuel

/-- Models `Parser::optional_return_type`. -/
def optional_return_type : Nat → Lexer → PRes (Option Node × Lexer)
  | 0, _ => .error .outOfFuel
  | fuel + 1, lx =>
    if next_type_is lx TokenType.Arrow then do
      let lx := lx.tail
      let (start, lx) ← next_or_error lx
      let (ret, lx) ← type_name_or_union_type fuel start lx
      .ok (some ret, lx)
    else
      .ok (none, lx)
termination_by structural fuel _ => fuel

/-- Models `Parser::optional_throw_type`. -/
def optional_throw_type : Nat → Lexer → PRes (Option Node × Lexer)
  | 0, _ => .error .outOfFuel
  | fuel + 1, lx =>
    if next_type_is lx TokenType.Throw then do
      let lx := lx.tail
      let (start, lx) ← next_or_error lx
      let (ret, lx) ← type_name_or_union_type fuel start lx
      .ok (some ret, lx)
    else
      .ok (none, lx)

end

/-- Models `Parser::parse` over a token stream.  The fuel bounds the call
depth of the embedded recursion; `100 * (length + 1)` strictly dominates
the depth reachable while consuming `length` tokens, so `outOfFuel` never
occurs for the inputs considered in the theorems below. -/
def parse (tokens : List Token) : PRes Node :=
  match expressions (100 * (tokens.length + 1)) tokens with
  | .ok (node, _) => .ok node
  | .error e => .error e

end Inko

namespace InkoIo

/-!
Embedding of `src/vm/src/vm/io.rs`.  `ObjectPointer` values are modelled
by the `InkoValue` sum; the effect of a system call on the filesystem or
on a stream is made explicit by threading a filesystem / world value and
returning the events the call performed.
-/

/-- Runtime values handled by the I/O layer (`ObjectPointer` payloads). -/
inductive InkoValue where
  | nil
  | int (value : Int)
  | str (value : String)
  | byte_array (bytes : List UInt8)
  | file (path : String)
deriving DecidableEq, Repr

/-- The `RcState` fields the I/O layer reads.  Prototypes are opaque ids. -/
structure RcState where
  nil_object : InkoValue
  integer_prototype : Nat
  read_only_file_prototype : Nat
  write_only_file_prototype : Nat
  read_write_file_prototype : Nat
deriving DecidableEq, Repr

/-- An `RcProcess` handle (opaque: only passed through to allocation). -/
structure RcProcess where
  id : Nat
deriving DecidableEq, Repr

/-- Runtime failures (§7 of the spec): an I/O error kind or a panic. -/
inductive RuntimeError where
  | Panic (message : String)
  | IoError (message : String)
deriving DecidableEq, Repr

/-- Modelled from the spec: the `From<String> for RuntimeError` conversion
applied by `?` to `options_for_integer` errors is outside `src/`; §7
classes an invalid open mode as a panic-class failure. -/
def RuntimeError.from_string (s : String) : RuntimeError := .Panic s

/-- Models `ObjectPointer::string_value`. -/
def string_value : InkoValue → Except RuntimeError String
  | .str s => .ok s
  | _ => .error (.Panic "ObjectValue is not a String")

/-- Models `ObjectPointer::integer_value`. -/
def integer_value : InkoValue → Except RuntimeError Int
  | .int n => .ok n
  | _ => .error (.Panic "ObjectValue is not an Integer")

/-- Models `ObjectPointer::byte_array_value`. -/
def byte_array_value : InkoValue → Except RuntimeError (List UInt8)
  | .byte_array b => .ok b
  | _ => .error (.Panic "ObjectValue is not a ByteArray")

/-- Modelled from the spec: `Process::allocate_usize` returns the count as
a runtime integer tagged with the integer prototype (§4.3: "Return the
byte count as a runtime integer"). -/
def allocate_usize (_process : RcProcess) (value : Nat) (_prototype : Nat) : InkoValue :=
  .int value

/-- Modelled from the spec: `Process::allocate` returns the value tagged
with the given prototype; the tag is kept alongside the value here. -/
def allocate (_process : RcProcess) (value : InkoValue) (prototype : Nat) :
    InkoValue × Nat :=
  (value, prototype)

/-- File-open mode constants of `io.rs`. -/
def READ : Int := 0

/-- Mode 1: write (truncate + create), fopen "w". -/
def WRITE : Int := 1

/-- Mode 2: append (create), fopen "a". -/
def APPEND : Int := 2

/-- Mode 3: read + write (create), fopen "w+". -/
def READ_WRITE : Int := 3

/-- Mode 4: read + append (create), fopen "a+". -/
def READ_APPEND : Int := 4

/-- Models `std::fs::OpenOptions` flag state. -/
structure OpenOptions where
  read : Bool
  write : Bool
  append : Bool
  truncate : Bool
  create : Bool
deriving DecidableEq, Repr

/-- `OpenOptions::new()`: all flags off. -/
def OpenOptions.new : OpenOptions :=
  ⟨false, false, false, false, false⟩

/-- Models `options_for_integer` (io.rs lines 275-288): the match on the
mode constants, with any other mode producing `file_mode_error!`. -/
def options_for_integer (mode : Int) : Except String OpenOptions :=
  if mode = READ then
    .ok { OpenOptions.new with read := true }
  else if mode = WRITE then
    .ok { OpenOptions.new with write := true, truncate := true, create := true }
  else if mode = APPEND then
    .ok { OpenOptions.new with append := true, create := true }
  else if mode = READ_WRITE then
    .ok { OpenOptions.new with read := true, write := true, create := true }
  else if mode = READ_APPEND then
    .ok { OpenOptions.new with read := true, append := true, create := true }
  else
    .error ("Invalid file open mode: " ++ toString mode)

/-- Models `prototype_for_open_mode` (io.rs lines 290-302). -/
def prototype_for_open_mode (state : RcState) (mode : Int) : Except String Nat :=
  if mode = READ then
    .ok state.read_only_file_prototype
  else if mode = WRITE ∨ mode = APPEND then
    .ok state.write_only_file_prototype
  else if mode = READ_WRITE ∨ mode = READ_APPEND then
    .ok state.read_write_file_prototype
  else
    .error ("Invalid file open mode: " ++ toString mode)

/-- Observable filesystem actions of an open call. -/
inductive FsEvent where
  | opened (path : String)
  | created (path : String)
deriving DecidableEq, Repr

/-- The filesystem, as the list of existing file paths. -/
abbrev FileSystem := List String

/-- Modelled from std: `OpenOptions::open` opens an existing file, creates
a missing one first when the `create` flag is set, and reports NotFound
otherwise.  The event list records what the call did. -/
def open_options_open (opts : OpenOptions) (path : String) (fs : FileSystem) :
    Except RuntimeError String × FileSystem × List FsEvent :=
  if fs.contains path then
    (.ok path, fs, [.opened path])
  else if opts.create then
    (.ok path, path :: fs, [.created path, .opened path])
  else
    (.error (.IoError "NotFound"), fs, [])

/-- Models `open_file` (io.rs lines 165-178): extract path and mode,
resolve the open options and the prototype, and only then open the file.
The result is the allocated file object with its prototype tag, the
resulting filesystem, and the filesystem events performed. -/
def open_file (state : RcState) (process : RcProcess)
    (path_ptr mode_ptr : InkoValue) (fs : FileSystem) :
    Except RuntimeError (InkoValue × Nat) × FileSystem × List FsEvent :=
  match string_value path_ptr with
  | .error e => (.error e, fs, [])
  | .ok path =>
    match integer_value mode_ptr with
    | .error e => (.error e, fs, [])
    | .ok mode =>
      match options_for_integer mode with
      | .error e => (.error (RuntimeError.from_string e), fs, [])
      | .ok open_opts =>
        match prototype_for_open_mode state mode with
        | .error e => (.error (RuntimeError.from_string e), fs, [])
        | .ok prototype =>
          match open_options_open open_opts path fs with
          | (.error e, fs2, events) => (.error e, fs2, events)
          | (.ok f, fs2, events) =>
            (.ok (allocate process (InkoValue.file f) prototype), fs2, events)

/-- UTF-8 bytes of a string (Rust `str::as_bytes`). -/
def string_as_bytes (s : String) : List UInt8 :=
  s.data.flatMap String.utf8EncodeChar

/-- UTF-8 byte length of a string. -/
def utf8_byte_length (s : String) : Nat :=
  (string_as_bytes s).length

/-- Models `buffer_to_write` (io.rs lines 60-68): a string is written as
its UTF-8 bytes, otherwise the value must be a byte array. -/
def buffer_to_write (buffer : InkoValue) : Except RuntimeError (List UInt8) :=
  match buffer with
  | .str s => .ok (string_as_bytes s)
  | other => byte_array_value other

/-- An output stream for `io_write`: one call of Rust `Write::write`,
which consumes some prefix of the buffer and reports how many bytes it
accepted (or an I/O error).  Partial writes are permitted by the `Write`
contract; nothing in `io_write` retries the remainder. -/
structure Writer where
  write : List UInt8 → Except RuntimeError Nat

/-- Models `io_write` (io.rs lines 70-79): one `output.write(...)` call,
whose reported count is returned as a runtime integer. -/
def io_write (state : RcState) (process : RcProcess) (output : Writer)
    (to_write : InkoValue) : Except RuntimeError InkoValue := do
  let buf ← buffer_to_write to_write
  let written ← output.write buf
  pure (allocate_usize process written state.integer_prototype)

/-- The stream a flush call is directed at. -/
inductive FlushTarget where
  | stdout_handle
  | stderr_handle
  | file_handle (path : String)
deriving DecidableEq, Repr

/-- Flush counters per stream, to observe which stream a call flushed. -/
structure IoWorld where
  stdout_flushed : Nat
  stderr_flushed : Nat
  file_flushed : Nat
deriving DecidableEq, Repr

/-- One flush of the given stream. -/
def do_flush (t : FlushTarget) (w : IoWorld) : IoWorld :=
  match t with
  | .stdout_handle => { w with stdout_flushed := w.stdout_flushed + 1 }
  | .stderr_handle => { w with stderr_flushed := w.stderr_flushed + 1 }
  | .file_handle _ => { w with file_flushed := w.file_flushed + 1 }

/-- Models `io_flush` (io.rs lines 81-86): flush the given output and
return the runtime nil.  (A flush failure would be an I/O error; the
claims below concern which stream is flushed, so the model's flush always
succeeds.) -/
def io_flush (state : RcState) (output : FlushTarget) (w : IoWorld) :
    Except RuntimeError InkoValue × IoWorld :=
  (.ok state.nil_object, do_flush output w)

/-- Models `stdout_flush` (io.rs lines 98-102): `io::stdout()`. -/
def stdout_flush (state : RcState) (w : IoWorld) :
    Except RuntimeError InkoValue × IoWorld :=
  io_flush state .stdout_handle w

/-- Models `stderr_flush` (io.rs lines 114-118).  The source acquires
`io::stdout()` — not `io::stderr()` — as the output to flush, and this
embedding reproduces that. -/
def stderr_flush (state : RcState) (w : IoWorld) :
    Except RuntimeError InkoValue × IoWorld :=
  io_flush state .stdout_handle w

/-- Models `flush_file` (io.rs lines 143-150). -/
def flush_file (state : RcState) (file_ptr : InkoValue) (w : IoWorld) :
    Except RuntimeError InkoValue × IoWorld :=
  match file_ptr with
  | .file p => io_flush state (.file_handle p) w
  | _ => (.error (.Panic "ObjectValue is not a File"), w)

end InkoIo

namespace InkoRt

/-!
Embedding of the stack-mask computation of `src/rt/src/runtime.rs`.
-/

/-- Truncation to unsigned 64-bit (`as u64` on a usize). -/
def to64 (a : Nat) : Nat := a % 2 ^ 64

/-- Unsigned 64-bit subtraction with wrap-around, for `a` already below
`2 ^ 64`. -/
def sub64 (a b : Nat) : Nat := (a + 2 ^ 64 - b % 2 ^ 64) % 2 ^ 64

/-- Bitwise complement on 64 bits (`!x` on a u64). -/
def not64 (a : Nat) : Nat := Nat.xor (a % 2 ^ 64) (2 ^ 64 - 1)

/-- The runtime configuration field the stack mask reads. -/
structure Config where
  stack_size : Nat
deriving DecidableEq, Repr

/-- The runtime state holding the configuration. -/
structure RtState where
  config : Config
deriving DecidableEq, Repr

/-- An Inko runtime handle (`Runtime { state }`). -/
structure Runtime where
  state : RtState
deriving DecidableEq, Repr

/-- Modelled from the spec: `total_stack_size` lives in `crate::stack`,
which is not under `src/`; per §3.4 the stack size is the configured size
"rounded up to the platform page size". -/
def total_stack_size (size : Nat) (page : Nat) : Nat :=
  ((size + page - 1) / page) * page

/-- Models `inko_runtime_stack_mask` (runtime.rs lines 102-110); the
platform `page_size()` is passed as a parameter. -/
def inko_runtime_stack_mask (runtime : Runtime) (page : Nat) : Nat :=
  let raw_size := runtime.state.config.stack_size
  let total := to64 (total_stack_size raw_size page)
  not64 (sub64 total 1)

/-- The spec's phrasing of the rounding: `n` rounded up to a multiple of
`p` is `n` itself when `p` divides it, and otherwise `n` plus the missing
remainder. -/
def rounded_up_to_multiple (n p : Nat) : Nat :=
  if n % p = 0 then n else n + (p - n % p)

/-- The mask as the claim words it: the bitwise complement, in unsigned
64-bit arithmetic, of (the rounded-up stack size minus one). -/
def spec_stack_mask (n p : Nat) : Nat :=
  not64 (sub64 (to64 (rounded_up_to_multiple n p)) 1)

/-- The two round-up formulations agree for a positive page size. -/
theorem total_stack_size_eq_rounded (n p : Nat) (hp : 0 < p) :
    total_stack_size n p = rounded_up_to_multiple n p := by
  unfold total_stack_size rounded_up_to_multiple
  obtain ⟨k, r, rfl, hrlt⟩ : ∃ k r, n = p * k + r ∧ r < p :=
    ⟨n / p, n % p, (Nat.div_add_mod n p).symm, Nat.mod_lt _ hp⟩
  rw [Nat.mul_add_mod, Nat.mod_eq_of_lt hrlt]
  rcases Nat.eq_zero_or_pos r with h0 | h0
  · subst h0
    have h1 : p * k + 0 + p - 1 = p * k + (p - 1) := by omega
    rw [if_pos rfl, h1, Nat.mul_add_div hp,
      Nat.div_eq_of_lt (show p - 1 < p by omega)]
    simp [Nat.mul_comm]
  · have hsucc : p * (k + 1) = p * k + p := by ring
    have h1 : p * k + r + p - 1 = p * (k + 1) + (r - 1) := by omega
    rw [if_neg (by omega), h1, Nat.mul_add_div hp,
      Nat.div_eq_of_lt (show r - 1 < p by omega),
      Nat.add_zero, Nat.add_mul, one_mul, Nat.mul_comm k p]
    omega

end InkoRt

namespace Inko

/-!
Claim theorems about the parser.
-/

/-- Name of the root `Send` node of a parse result's first expression,
when there is one (used to state what a parse did *not* produce). -/
def root_send_name : PRes Node → Option String
  | .ok (.Expressions (Node.Send name _ _ _ _ :: _)) => some name
  | _ => none

/-- Whether the first argument of the root `Send` of a parse result's
first expression is a `KeywordArgument`. -/
def first_argument_is_keyword : PRes Node → Bool
  | .ok (.Expressions (Node.Send _ _ (Node.KeywordArgument _ _ _ _ :: _) _ _ :: _)) => true
  | _ => false

/-- C1: the claim says `parse` always *returns* either an `Expressions`
root or a structured failure and never panics.  The code disagrees: on
the token stream of `"1 +"` the `binary_op!` macro calls
`lexer.next().unwrap()` on an exhausted stream, and on `"let 1 = 2"` the
`variable_name` helper hits a literal `panic!`; both inputs crash instead
of returning a failure. -/
theorem claim_C1_parse_panics_on_binop_end_and_bad_let_name :
    parse [⟨.Integer, "1", 1, 1⟩, ⟨.Add, "+", 1, 3⟩]
      = .error (.panicked unwrapMsg)
    ∧ parse [⟨.Let, "let", 1, 1⟩, ⟨.Integer, "1", 1, 5⟩,
        ⟨.Assign, "=", 1, 7⟩, ⟨.Integer, "2", 1, 9⟩]
      = .error (.panicked
          "Unexpected Integer, expected an identifier or attribute") :=
  ⟨rfl, rfl⟩

/-- C2: multiplicative operators bind tighter than additive ones and
logical-and binds tighter than logical-or: for all identifier operands
`a`, `b`, `c`, `a + b * c` parses as `Add(a, Mul(b, c))` and
`a || b && c` parses as `Or(a, And(b, c))`. -/
theorem claim_C2_precedence_ladder (a b c : String) :
    parse [⟨.Identifier, a, 1, 1⟩, ⟨.Add, "+", 1, 3⟩,
           ⟨.Identifier, b, 1, 5⟩, ⟨.Mul, "*", 1, 7⟩,
           ⟨.Identifier, c, 1, 9⟩]
      = .ok (.Expressions [.Add (.Identifier a 1 1)
          (.Mul (.Identifier b 1 5) (.Identifier c 1 9) 1 7) 1 3])
    ∧ parse [⟨.Identifier, a, 1, 1⟩, ⟨.Or, "||", 1, 3⟩,
           ⟨.Identifier, b, 1, 6⟩, ⟨.And, "&&", 1, 8⟩,
           ⟨.Identifier, c, 1, 11⟩]
      = .ok (.Expressions [.Or (.Identifier a 1 1)
          (.And (.Identifier b 1 6) (.Identifier c 1 11) 1 8) 1 3]) :=
  ⟨rfl, rfl⟩

/-- C2 witness: the precedence ladder at concrete operand names. -/
theorem claim_C2_witness :
    parse [⟨.Identifier, "a0", 1, 1⟩, ⟨.Add, "+", 1, 3⟩,
           ⟨.Identifier, "b0", 1, 5⟩, ⟨.Mul, "*", 1, 7⟩,
           ⟨.Identifier, "c0", 1, 9⟩]
      = .ok (.Expressions [.Add (.Identifier "a0" 1 1)
          (.Mul (.Identifier "b0" 1 5) (.Identifier "c0" 1 9) 1 7) 1 3]) :=
  (claim_C2_precedence_ladder "a0" "b0" "c0").1

/-- C3 counterexample: the claim says `"x[1]"` parses as a `Send "[]"`
with receiver `x`.  It does not: `[` is in `value_start`, so the bare
identifier `x` absorbs the same-line `[1]` as a paren-less argument list,
yielding `Send "x"` with one `Array` argument and no `"[]"` send at all. -/
theorem claim_C3_counterexample_identifier_bracket :
    parse [⟨.Identifier, "x", 1, 1⟩, ⟨.BracketOpen, "[", 1, 2⟩,
        ⟨.Integer, "1", 1, 3⟩, ⟨.BracketClose, "]", 1, 4⟩]
      = .ok (.Expressions [.Send "x" none
          [.Array [.Integer 1 1 3] 1 2] 1 1])
    ∧ root_send_name (parse [⟨.Identifier, "x", 1, 1⟩,
        ⟨.BracketOpen, "[", 1, 2⟩, ⟨.Integer, "1", 1, 3⟩,
        ⟨.BracketClose, "]", 1, 4⟩]) ≠ some "[]" :=
  ⟨rfl, by decide⟩

/-- C3 (amended): the same-line rule governs `bracket_send` itself: a `[`
on a different line than the expression's start token is always left in
the stream (first conjunct, for every state of the loop), so `"[1]\n[2]"`
parses as two `Array` literals; a same-line `[` after a value that does
not itself consume it (e.g. an integer literal) becomes a `Send "[]"`, or
`Send "[]="` when `= value` follows the `]`.  A bare identifier followed
by a same-line `[` instead absorbs `[...]` as a paren-less argument-list
`Array` (`"x[1]"` is `Send "x"`, not `Send "[]"`). -/
theorem claim_C3_bracket_send_line_rule :
    (∀ (fuel start_line : Nat) (node : Node) (tok : Token) (rest : Lexer),
      tok.token_type = TokenType.BracketOpen → tok.line ≠ start_line →
      bracket_send_loop (fuel + 1) start_line node (tok :: rest)
        = .ok (node, tok :: rest))
    ∧ parse [⟨.BracketOpen, "[", 1, 1⟩, ⟨.Integer, "1", 1, 2⟩,
        ⟨.BracketClose, "]", 1, 3⟩, ⟨.BracketOpen, "[", 2, 1⟩,
        ⟨.Integer, "2", 2, 2⟩, ⟨.BracketClose, "]", 2, 3⟩]
      = .ok (.Expressions [.Array [.Integer 1 1 2] 1 1,
          .Array [.Integer 2 2 2] 2 1])
    ∧ parse [⟨.Integer, "1", 1, 1⟩, ⟨.BracketOpen, "[", 1, 2⟩,
        ⟨.Integer, "2", 1, 3⟩, ⟨.BracketClose, "]", 1, 4⟩]
      = .ok (.Expressions [.Send "[]" (some (.Integer 1 1 1))
          [.Integer 2 1 3] 1 2])
    ∧ parse [⟨.Integer, "1", 1, 1⟩, ⟨.BracketOpen, "[", 1, 2⟩,
        ⟨.Integer, "2", 1, 3⟩, ⟨.BracketClose, "]", 1, 4⟩,
        ⟨.Assign, "=", 1, 6⟩, ⟨.Integer, "3", 1, 8⟩]
      = .ok (.Expressions [.Send "[]=" (some (.Integer 1 1 1))
          [.Integer 2 1 3, .Integer 3 1 8] 1 2])
    ∧ parse [⟨.Identifier, "x", 1, 1⟩, ⟨.BracketOpen, "[", 1, 2⟩,
        ⟨.Integer, "1", 1, 3⟩, ⟨.BracketClose, "]", 1, 4⟩]
      = .ok (.Expressions [.Send "x" none
          [.Array [.Integer 1 1 3] 1 2] 1 1]) := by
  refine ⟨?_, rfl, rfl, rfl, rfl⟩
  intro fuel start_line node tok rest hbt hne
  simp [bracket_send_loop, next_type_is, peek, hbt, hne]

/-- C3 witness: the general conjunct of the line rule at a concrete loop
state — a `[` on line 2 after an expression started on line 1 is left in
the stream. -/
theorem claim_C3_witness :
    bracket_send_loop 5 1 (.Integer 7 1 1)
        [⟨.BracketOpen, "[", 2, 1⟩, ⟨.Integer, "2", 2, 2⟩]
      = .ok (.Integer 7 1 1,
        [⟨.BracketOpen, "[", 2, 1⟩, ⟨.Integer, "2", 2, 2⟩]) :=
  claim_C3_bracket_send_line_rule.1 4 1 (.Integer 7 1 1)
    ⟨.BracketOpen, "[", 2, 1⟩ [⟨.Integer, "2", 2, 2⟩] rfl (by decide)

/-- C4 counterexample: the claim says an argument beginning with a
non-identifier token is positional even when a `:` follows.  The code
checks only the `:`: in `"f(1: 2)"` the integer-started argument becomes
`KeywordArgument "1" (Integer 2)`, not a positional expression. -/
theorem claim_C4_counterexample_integer_keyword :
    parse [⟨.Identifier, "f", 1, 1⟩, ⟨.ParenOpen, "(", 1, 2⟩,
        ⟨.Integer, "1", 1, 3⟩, ⟨.Colon, ":", 1, 4⟩,
        ⟨.Integer, "2", 1, 6⟩, ⟨.ParenClose, ")", 1, 7⟩]
      = .ok (.Expressions [.Send "f" none
          [.KeywordArgument "1" (.Integer 2 1 6) 1 3] 1 1])
    ∧ first_argument_is_keyword (parse [⟨.Identifier, "f", 1, 1⟩,
        ⟨.ParenOpen, "(", 1, 2⟩, ⟨.Integer, "1", 1, 3⟩,
        ⟨.Colon, ":", 1, 4⟩, ⟨.Integer, "2", 1, 6⟩,
        ⟨.ParenClose, ")", 1, 7⟩]) = true :=
  ⟨rfl, rfl⟩

/-- C4 (amended): within an argument list an argument is a
`KeywordArgument` exactly when the token *after* its first token is `:`,
whatever the first token's kind; the first token's text becomes the
keyword name.  `"f(a: 1, 2)"` gives `[KeywordArgument a 1, Integer 2]`
for any identifier text `a`, `"f(1: 2)"` gives `KeywordArgument "1"`,
and `"f(a, 2)"` keeps both arguments positional. -/
theorem claim_C4_keyword_argument_rule (s : String) :
    parse [⟨.Identifier, "f", 1, 1⟩, ⟨.ParenOpen, "(", 1, 2⟩,
        ⟨.Identifier, s, 1, 3⟩, ⟨.Colon, ":", 1, 4⟩,
        ⟨.Integer, "1", 1, 6⟩, ⟨.Comma, ",", 1, 7⟩,
        ⟨.Integer, "2", 1, 9⟩, ⟨.ParenClose, ")", 1, 10⟩]
      = .ok (.Expressions [.Send "f" none
          [.KeywordArgument s (.Integer 1 1 6) 1 3, .Integer 2 1 9] 1 1])
    ∧ parse [⟨.Identifier, "f", 1, 1⟩, ⟨.ParenOpen, "(", 1, 2⟩,
        ⟨.Integer, "1", 1, 3⟩, ⟨.Colon, ":", 1, 4⟩,
        ⟨.Integer, "2", 1, 6⟩, ⟨.ParenClose, ")", 1, 7⟩]
      = .ok (.Expressions [.Send "f" none
          [.KeywordArgument "1" (.Integer 2 1 6) 1 3] 1 1])
    ∧ parse [⟨.Identifier, "f", 1, 1⟩, ⟨.ParenOpen, "(", 1, 2⟩,
        ⟨.Identifier, "a", 1, 3⟩, ⟨.Comma, ",", 1, 4⟩,
        ⟨.Integer, "2", 1, 6⟩, ⟨.ParenClose, ")", 1, 7⟩]
      = .ok (.Expressions [.Send "f" none
          [.Identifier "a" 1 3, .Integer 2 1 6] 1 1]) :=
  ⟨rfl, rfl, rfl⟩

/-- C4 witness: the keyword-argument rule at a concrete keyword name. -/
theorem claim_C4_witness :
    parse [⟨.Identifier, "f", 1, 1⟩, ⟨.ParenOpen, "(", 1, 2⟩,
        ⟨.Identifier, "amount", 1, 3⟩, ⟨.Colon, ":", 1, 4⟩,
        ⟨.Integer, "1", 1, 6⟩, ⟨.Comma, ",", 1, 7⟩,
        ⟨.Integer, "2", 1, 9⟩, ⟨.ParenClose, ")", 1, 10⟩]
      = .ok (.Expressions [.Send "f" none
          [.KeywordArgument "amount" (.Integer 1 1 6) 1 3,
           .Integer 2 1 9] 1 1]) :=
  (claim_C4_keyword_argument_rule "amount").1

/-- C5: the claim lists `var` as a member of the parser's value-starter
set.  The source's `value_start` literal lists `Let` twice and `Var` not
at all (while every other kind the claim lists is present, and nothing
else is), so `"foo var x = 1"` parses as two top-level expressions — the
identifier `foo` and a `VarDefine` — not as a `Send` with an argument. -/
theorem claim_C5_value_start_lacks_var :
    value_start.contains TokenType.Var = false
    ∧ (([.String, .Integer, .Float, .Identifier, .Constant, .HashOpen,
        .Sub, .BracketOpen, .CurlyOpen, .Function, .Let, .Class, .Trait,
        .Return, .Impl, .Comment, .Colon, .Type, .Attribute, .SelfObject,
        .Try, .Throw] : List TokenType).all
          (fun t => value_start.contains t) = true)
    ∧ (value_start.all (fun t =>
        ([.String, .Integer, .Float, .Identifier, .Constant, .HashOpen,
          .Sub, .BracketOpen, .CurlyOpen, .Function, .Let, .Class, .Trait,
          .Return, .Impl, .Comment, .Colon, .Type, .Attribute, .SelfObject,
          .Try, .Throw] : List TokenType).contains t) = true)
    ∧ parse [⟨.Identifier, "foo", 1, 1⟩, ⟨.Var, "var", 1, 5⟩,
        ⟨.Identifier, "x", 1, 9⟩, ⟨.Assign, "=", 1, 11⟩,
        ⟨.Integer, "1", 1, 13⟩]
      = .ok (.Expressions [.Identifier "foo" 1 1,
          .VarDefine (.Identifier "x" 1 9) (.Integer 1 1 13) none 1 5]) :=
  ⟨by decide, by decide, by decide, rfl⟩

/-- C10: an input that opens a parenthesized argument list and ends
before the closing `)` still returns a successful AST with the arguments
read so far: `"foo(1"` parses as `Send "foo"` with the single argument
`Integer 1`, because `arguments_with_parenthesis` ends its loop silently
when the stream is exhausted. -/
theorem claim_C10_unterminated_paren_arguments :
    parse [⟨.Identifier, "foo", 1, 1⟩, ⟨.ParenOpen, "(", 1, 4⟩,
        ⟨.Integer, "1", 1, 5⟩]
      = .ok (.Expressions [.Send "foo" none [.Integer 1 1 5] 1 1]) :=
  rfl

end Inko

namespace InkoIo

/-!
Claim theorems about the I/O layer.
-/

/-- C6: for every filesystem, path and mode integer outside {0,1,2,3,4},
`open_file` returns the mode error and performs no filesystem action: the
mode is validated by `options_for_integer` before `open` is reached, so
the filesystem is unchanged and no open/create event occurs. -/
theorem claim_C6_invalid_mode_rejected_before_open
    (state : RcState) (process : RcProcess) (path : String)
    (fs : FileSystem) (m : Int) (h : m ∉ ([0, 1, 2, 3, 4] : List Int)) :
    open_file state process (.str path) (.int m) fs
      = (.error (.Panic ("Invalid file open mode: " ++ toString m)), fs, []) := by
  have h0 : m ≠ 0 := by intro hc; exact h (by simp [hc])
  have h1 : m ≠ 1 := by intro hc; exact h (by simp [hc])
  have h2 : m ≠ 2 := by intro hc; exact h (by simp [hc])
  have h3 : m ≠ 3 := by intro hc; exact h (by simp [hc])
  have h4 : m ≠ 4 := by intro hc; exact h (by simp [hc])
  simp [open_file, string_value, integer_value, options_for_integer,
    READ, WRITE, APPEND, READ_WRITE, READ_APPEND,
    RuntimeError.from_string, h0, h1, h2, h3, h4]

/-- C6 witness: mode 7 on a one-file filesystem is rejected with the mode
error and the filesystem is untouched. -/
theorem claim_C6_witness :
    (7 : Int) ∉ ([0, 1, 2, 3, 4] : List Int)
    ∧ open_file ⟨.nil, 0, 1, 2, 3⟩ ⟨0⟩ (.str "x") (.int 7) ["y"]
      = (.error (.Panic ("Invalid file open mode: " ++ toString (7 : Int))),
          ["y"], []) :=
  ⟨by decide,
   claim_C6_invalid_mode_rejected_before_open ⟨.nil, 0, 1, 2, 3⟩ ⟨0⟩ "x"
     ["y"] 7 (by decide)⟩

/-- C7: the claim says every flush operation flushes the stream it was
given — in particular that flushing stderr flushes stderr.  The source's
`stderr_flush` acquires `io::stdout()` instead of `io::stderr()`: it
returns the runtime nil but bumps the stdout flush counter and leaves the
stderr counter untouched, while `stdout_flush` and `flush_file` do flush
their own streams. -/
theorem claim_C7_stderr_flush_flushes_stdout :
    stderr_flush ⟨.nil, 0, 1, 2, 3⟩ ⟨0, 0, 0⟩
      = (.ok InkoValue.nil, ⟨1, 0, 0⟩)
    ∧ stdout_flush ⟨.nil, 0, 1, 2, 3⟩ ⟨0, 0, 0⟩
      = (.ok InkoValue.nil, ⟨1, 0, 0⟩)
    ∧ flush_file ⟨.nil, 0, 1, 2, 3⟩ (.file "f") ⟨0, 0, 0⟩
      = (.ok InkoValue.nil, ⟨0, 0, 1⟩) :=
  ⟨rfl, rfl, rfl⟩

/-- A stream that accepts at most one byte per write call (a legal
implementation of Rust's `Write::write`). -/
def partial_writer : Writer :=
  ⟨fun buf => .ok (min 1 buf.length)⟩

/-- C8 counterexample: the claim says a successful `write(stream, s)`
returns the UTF-8 byte length of `s`, "never reporting a shorter count
from a partial write".  `io_write` performs a single `Write::write` call
and returns whatever it reports: on a stream that accepts one byte, the
two-byte string `"hi"` yields 1, not 2. -/
theorem claim_C8_counterexample_partial_write :
    io_write ⟨.nil, 0, 1, 2, 3⟩ ⟨0⟩ partial_writer (.str "hi")
      = .ok (.int 1)
    ∧ utf8_byte_length "hi" = 2
    ∧ (Except.ok (InkoValue.int 1) : Except RuntimeError InkoValue)
      ≠ .ok (.int 2) :=
  ⟨rfl, rfl, by simp⟩

/-- C8 (amended): a successful `write(stream, s)` returns exactly the
byte count reported by the underlying stream's single write call; when
the stream accepts the whole buffer that count is the UTF-8 byte length
of `s`, but a partial write yields the smaller reported count. -/
theorem claim_C8_write_returns_reported_count
    (state : RcState) (process : RcProcess) (w : Writer) (s : String)
    (n : Nat) (hw : w.write (string_as_bytes s) = .ok n) :
    io_write state process w (.str s) = .ok (.int n)
    ∧ (n = utf8_byte_length s →
        io_write state process w (.str s) = .ok (.int (utf8_byte_length s))) := by
  have hmain : io_write state process w (.str s) = .ok (.int n) := by
    have hrw : io_write state process w (.str s)
        = Except.map (fun a => InkoValue.int (Int.ofNat a))
            (w.write (string_as_bytes s)) := rfl
    rw [hrw, hw]
    rfl
  exact ⟨hmain, fun hn => by rw [hmain, hn]⟩

/-- C8 witness: a stream that accepts everything it is given returns the
full UTF-8 byte length — for `"hi"`, the count 2. -/
theorem claim_C8_witness :
    io_write ⟨.nil, 0, 1, 2, 3⟩ ⟨0⟩ ⟨fun b => .ok b.length⟩ (.str "hi")
      = .ok (.int 2) :=
  (claim_C8_write_returns_reported_count ⟨.nil, 0, 1, 2, 3⟩ ⟨0⟩
    ⟨fun b => .ok b.length⟩ "hi" 2 rfl).1

end InkoIo

namespace InkoRt

/-- C9: for a runtime configured with stack size `n` and a positive
platform page size `p`, `inko_runtime_stack_mask` equals the bitwise
complement, in unsigned 64-bit arithmetic, of (`n` rounded up to a
multiple of `p`, minus one) — the spec-side `spec_stack_mask`. -/
theorem claim_C9_stack_mask_rounding (n p : Nat) (hp : 0 < p) :
    inko_runtime_stack_mask ⟨⟨⟨n⟩⟩⟩ p = spec_stack_mask n p := by
  show not64 (sub64 (to64 (total_stack_size n p)) 1) = spec_stack_mask n p
  rw [total_stack_size_eq_rounded n p hp]
  rfl

/-- C9 witness: the mask identity at stack size 1000 and page size 4096. -/
theorem claim_C9_witness :
    0 < 4096
    ∧ inko_runtime_stack_mask ⟨⟨⟨1000⟩⟩⟩ 4096 = spec_stack_mask 1000 4096 :=
  ⟨by decide, claim_C9_stack_mask_rounding 1000 4096 (by decide)⟩

end InkoRt
